import Mathlib

/-!
# SkiaPlot: range aggregation, coordinate mapping and layered rendering

A shallow embedding of `include/skiaplot.h` and `src/skiaplot.cpp`.

* `double` and `float` values are elements of an arbitrary linearly ordered field `K`
  (exact arithmetic; instantiate `K := ℝ` for the reals, `K := ℚ` to evaluate).
* `int` values are `Int`, taken without overflow; C++ integer division is `Int.tdiv`
  (truncation towards zero).
* `uint32_t` colours are `Nat`.
* The Skia canvas is modelled by the list of draw calls issued on it, oldest first.
* The external collaborators (surface allocation, text measurement, number formatting,
  image snapshot, PNG encoder, file stream) are the fields of `Backend`.
-/

set_option linter.unusedSectionVars false

namespace SkiaPlot

/-! ## Data model (`skiaplot.h`) -/

/-- The `struct Point`: a pair of coordinates. -/
structure Point (K : Type) where
  x : K
  y : K
deriving DecidableEq, Repr

/-- The `class DataSeries`: a name and the ordered points. -/
structure DataSeries (K : Type) where
  name : String
  points : List (Point K)
deriving DecidableEq, Repr

/-- The four out-parameters of `DataSeries::getRange`. -/
structure Range (K : Type) where
  xMin : K
  xMax : K
  yMin : K
  yMax : K
deriving DecidableEq, Repr

/-- The `struct PlotConfig`, every field with its default member initialiser. -/
structure PlotConfig (K : Type) [LinearOrderedField K] where
  width : Int := 800
  height : Int := 600
  marginLeft : Int := 60
  marginRight : Int := 40
  marginTop : Int := 40
  marginBottom : Int := 60
  backgroundColor : Nat := 0xFFFFFFFF
  axisColor : Nat := 0xFF000000
  gridColor : Nat := 0xFFCCCCCC
  lineColor : Nat := 0xFF0000FF
  lineWidth : K := 2.0
  showGrid : Bool := true
  showPoints : Bool := true
  pointRadius : K := 4.0
  title : String := ""
  xLabel : String := ""
  yLabel : String := ""
deriving DecidableEq

/-- The `SkPaint::Style` values used by the renderer. -/
inductive PaintStyle where
  | kFill
  | kStroke
deriving DecidableEq, Repr

/-- The `SkPaint` attributes the renderer sets; the defaults are those of a fresh `SkPaint`. -/
structure Paint (K : Type) [LinearOrderedField K] where
  color : Nat := 0xFF000000
  strokeWidth : K := 0
  style : PaintStyle := PaintStyle.kFill
  antiAlias : Bool := false
deriving DecidableEq

/-- The verbs appended to an `SkPath` by `drawSeries`. -/
inductive PathVerb (K : Type) where
  | moveTo (x y : K)
  | lineTo (x y : K)
deriving DecidableEq, Repr

/-- One call on the `SkCanvas`. -/
inductive DrawCall (K : Type) [LinearOrderedField K] where
  | drawRect (left top right bottom : K) (paint : Paint K)
  | drawLine (x0 y0 x1 y1 : K) (paint : Paint K)
  | drawSimpleText (text : String) (x y : K) (fontSize : K) (paint : Paint K)
  | drawPath (path : List (PathVerb K)) (paint : Paint K)
  | drawCircle (cx cy radius : K) (paint : Paint K)
  | save
  | translate (dx dy : K)
  | rotate (degrees : K)
  | restore
deriving DecidableEq

/-- The canvas: the draw calls issued so far, oldest first. -/
abbrev Canvas (K : Type) [LinearOrderedField K] := List (DrawCall K)

/-- The `SkSurface` held by a plot: its size and its canvas (`none` for a null canvas). -/
structure Surface (K : Type) [LinearOrderedField K] where
  width : Int
  height : Int
  canvas : Option (Canvas K)
deriving DecidableEq

/-- The private state of `class Plot`. -/
structure Plot (K : Type) [LinearOrderedField K] where
  config : PlotConfig K
  series : List (DataSeries K)
  surface : Option (Surface K)
  xMin : K
  xMax : K
  yMin : K
  yMax : K
  rangeComputed : Bool
deriving DecidableEq

/-- The external collaborators of the renderer. -/
structure Backend (K : Type) [LinearOrderedField K] where
  /-- Whether `SkSurface::MakeRasterN32Premul(width, height)` returns a surface. -/
  allocOk : Int → Int → Bool
  /-- Whether the surface of that size has a canvas. -/
  canvasOk : Int → Int → Bool
  /-- The width and height of the bounds `SkFont::measureText` reports at a font size. -/
  measureText : K → String → K × K
  /-- The text `std::fixed << std::setprecision(1)` prints for a value. -/
  formatFixed1 : K → String
  /-- Whether `makeImageSnapshot` and `SkPngEncoder::Encode` yield data for a surface. -/
  encodeOk : Surface K → Bool
  /-- Whether `SkFILEWStream` opens the file. -/
  streamValid : String → Bool
  /-- The result of `SkFILEWStream::write` of the encoded surface to the file. -/
  writeOk : String → Surface K → Bool

variable {K : Type} [LinearOrderedField K]

/-! ## `DataSeries` -/

/-- The body of the loop of `DataSeries::getRange`. -/
def getRangeStep (r : Range K) (p : Point K) : Range K :=
  { xMin := min r.xMin p.x, xMax := max r.xMax p.x,
    yMin := min r.yMin p.y, yMax := max r.yMax p.y }

/-- The `DataSeries::getRange`. -/
def DataSeries.getRange (s : DataSeries K) : Range K :=
  match s.points with
  | [] => { xMin := 0, xMax := 0, yMin := 0, yMax := 0 }
  | p0 :: rest =>
    (p0 :: rest).foldl getRangeStep { xMin := p0.x, xMax := p0.x, yMin := p0.y, yMax := p0.y }

/-- The `DataSeries::addPoint`. -/
def DataSeries.addPoint (s : DataSeries K) (x y : K) : DataSeries K :=
  { s with points := s.points ++ [{ x := x, y := y }] }

/-! ## `Plot`: construction and mutation -/

/-- The constructor `Plot::Plot(int width, int height)`. -/
def Plot.new (width : Int) (height : Int) : Plot K :=
  { config := { width := width, height := height }
    series := []
    surface := none
    xMin := 0, xMax := 1, yMin := 0, yMax := 1
    rangeComputed := false }

/-- The `Plot::setConfig`. -/
def Plot.setConfig (p : Plot K) (config : PlotConfig K) : Plot K :=
  { p with config := config, surface := none }

/-- The `Plot::addSeries`. -/
def Plot.addSeries (p : Plot K) (series : DataSeries K) : Plot K :=
  { p with series := p.series ++ [series], rangeComputed := false }

/-- The `Plot::clearSeries`. -/
def Plot.clearSeries (p : Plot K) : Plot K :=
  { p with series := [], rangeComputed := false }

/-- The `SkSurface::MakeRasterN32Premul` through the backend. -/
def makeRaster (b : Backend K) (width height : Int) : Option (Surface K) :=
  if b.allocOk width height then
    some { width := width, height := height,
           canvas := if b.canvasOk width height then some [] else none }
  else none

/-- The `Plot::setupCanvas`. -/
def Plot.setupCanvas (b : Backend K) (p : Plot K) : Plot K :=
  match p.surface with
  | none => { p with surface := makeRaster b p.config.width p.config.height }
  | some s =>
    if s.width ≠ p.config.width ∨ s.height ≠ p.config.height then
      { p with surface := makeRaster b p.config.width p.config.height }
    else p

/-! ## Range aggregation -/

/-- The loop state of `Plot::computeDataRange`: the cached bounds and the local `first`. -/
structure RangeAcc (K : Type) where
  xMin : K
  xMax : K
  yMin : K
  yMax : K
  first : Bool
deriving DecidableEq, Repr

/-- The body of the loop over the series in `Plot::computeDataRange`. -/
def rangeLoopBody (acc : RangeAcc K) (series : DataSeries K) : RangeAcc K :=
  let s := series.getRange
  if series.points.isEmpty then acc
  else if acc.first then
    { xMin := s.xMin, xMax := s.xMax, yMin := s.yMin, yMax := s.yMax, first := false }
  else
    { xMin := min acc.xMin s.xMin, xMax := max acc.xMax s.xMax,
      yMin := min acc.yMin s.yMin, yMax := max acc.yMax s.yMax, first := false }

/-- The `Plot::computeDataRange`. -/
def Plot.computeDataRange (p : Plot K) : Plot K :=
  if p.rangeComputed || p.series.isEmpty then p
  else
    let acc := p.series.foldl rangeLoopBody
      { xMin := p.xMin, xMax := p.xMax, yMin := p.yMin, yMax := p.yMax, first := true }
    let xPadding := (acc.xMax - acc.xMin) * 0.05
    let yPadding := (acc.yMax - acc.yMin) * 0.05
    let xPadding := if xPadding = 0 then 0.5 else xPadding
    let yPadding := if yPadding = 0 then 0.5 else yPadding
    { p with
      xMin := acc.xMin - xPadding
      xMax := acc.xMax + xPadding
      yMin := acc.yMin - yPadding
      yMax := acc.yMax + yPadding
      rangeComputed := true }

/-! ## Coordinate mapping -/

/-- The `Plot::dataToCanvas`; the result is the pair `(canvasX, canvasY)`. -/
def Plot.dataToCanvas (p : Plot K) (x y : K) : K × K :=
  let plotWidth : Int := p.config.width - p.config.marginLeft - p.config.marginRight
  let plotHeight : Int := p.config.height - p.config.marginTop - p.config.marginBottom
  ((p.config.marginLeft : K) + (x - p.xMin) / (p.xMax - p.xMin) * (plotWidth : K),
   ((p.config.marginTop + plotHeight : Int) : K) -
     (y - p.yMin) / (p.yMax - p.yMin) * (plotHeight : K))

/-! ## Draw layers

Every layer takes the canvas and returns it with the layer's calls appended. -/

/-- The `Plot::drawBackground`. -/
def Plot.drawBackground (p : Plot K) (canvas : Canvas K) : Canvas K :=
  let paint : Paint K := { color := p.config.backgroundColor }
  canvas ++ [DrawCall.drawRect 0 0 (p.config.width : K) (p.config.height : K) paint]

/-- The `Plot::drawGrid`. -/
def Plot.drawGrid (p : Plot K) (canvas : Canvas K) : Canvas K :=
  if !p.config.showGrid then canvas
  else
    let paint : Paint K :=
      { color := p.config.gridColor, strokeWidth := 1.0, style := PaintStyle.kStroke }
    let plotWidth : Int := p.config.width - p.config.marginLeft - p.config.marginRight
    let plotHeight : Int := p.config.height - p.config.marginTop - p.config.marginBottom
    let numVerticalLines : Int := 10
    let canvas := (List.range (numVerticalLines.toNat + 1)).foldl (fun canvas i =>
      let x : K := ((p.config.marginLeft + ((i : Int) * plotWidth).tdiv numVerticalLines : Int) : K)
      canvas ++ [DrawCall.drawLine x (p.config.marginTop : K)
        x ((p.config.height - p.config.marginBottom : Int) : K) paint]) canvas
    let numHorizontalLines : Int := 10
    (List.range (numHorizontalLines.toNat + 1)).foldl (fun canvas i =>
      let y : K := ((p.config.marginTop + ((i : Int) * plotHeight).tdiv numHorizontalLines : Int) : K)
      canvas ++ [DrawCall.drawLine (p.config.marginLeft : K) y
        ((p.config.width - p.config.marginRight : Int) : K) y paint]) canvas

/-- The `Plot::drawAxes`. -/
def Plot.drawAxes (b : Backend K) (p : Plot K) (canvas : Canvas K) : Canvas K :=
  let paint : Paint K :=
    { color := p.config.axisColor, strokeWidth := 2.0, style := PaintStyle.kStroke }
  let plotWidth : Int := p.config.width - p.config.marginLeft - p.config.marginRight
  let plotHeight : Int := p.config.height - p.config.marginTop - p.config.marginBottom
  let canvas := canvas ++ [DrawCall.drawLine (p.config.marginLeft : K)
    ((p.config.height - p.config.marginBottom : Int) : K)
    ((p.config.marginLeft + plotWidth : Int) : K)
    ((p.config.height - p.config.marginBottom : Int) : K) paint]
  let canvas := canvas ++ [DrawCall.drawLine (p.config.marginLeft : K) (p.config.marginTop : K)
    (p.config.marginLeft : K) ((p.config.marginTop + plotHeight : Int) : K) paint]
  let fontSize : K := 12
  let paint : Paint K := { paint with style := PaintStyle.kFill }
  let numXTicks : Int := 5
  let canvas := (List.range (numXTicks.toNat + 1)).foldl (fun canvas i =>
    let x : K := ((p.config.marginLeft + ((i : Int) * plotWidth).tdiv numXTicks : Int) : K)
    let y : K := ((p.config.height - p.config.marginBottom : Int) : K)
    let canvas := canvas ++ [DrawCall.drawLine x y x (y + 5) paint]
    let dataX : K := p.xMin + ((i : Int) : K) * (p.xMax - p.xMin) / (numXTicks : K)
    let label := b.formatFixed1 dataX
    let bounds := b.measureText fontSize label
    canvas ++ [DrawCall.drawSimpleText label (x - bounds.1 / 2) (y + 20) fontSize paint]) canvas
  let numYTicks : Int := 5
  (List.range (numYTicks.toNat + 1)).foldl (fun canvas i =>
    let x : K := (p.config.marginLeft : K)
    let y : K :=
      ((p.config.marginTop + plotHeight - ((i : Int) * plotHeight).tdiv numYTicks : Int) : K)
    let canvas := canvas ++ [DrawCall.drawLine (x - 5) y x y paint]
    let dataY : K := p.yMin + ((i : Int) : K) * (p.yMax - p.yMin) / (numYTicks : K)
    let label := b.formatFixed1 dataY
    let bounds := b.measureText fontSize label
    canvas ++ [DrawCall.drawSimpleText label (x - bounds.1 - 10) (y + bounds.2 / 2)
      fontSize paint]) canvas

/-- The `Plot::drawSeries`. -/
def Plot.drawSeries (p : Plot K) (canvas : Canvas K) (series : DataSeries K) (color : Nat) :
    Canvas K :=
  match series.points with
  | [] => canvas
  | p0 :: rest =>
    let linePaint : Paint K :=
      { color := color, strokeWidth := p.config.lineWidth, style := PaintStyle.kStroke,
        antiAlias := true }
    let path : List (PathVerb K) :=
      [PathVerb.moveTo (p.dataToCanvas p0.x p0.y).1 (p.dataToCanvas p0.x p0.y).2]
    let path := rest.foldl (fun path q =>
      path ++ [PathVerb.lineTo (p.dataToCanvas q.x q.y).1 (p.dataToCanvas q.x q.y).2]) path
    let canvas := canvas ++ [DrawCall.drawPath path linePaint]
    if p.config.showPoints then
      let pointPaint : Paint K :=
        { color := color, style := PaintStyle.kFill, antiAlias := true }
      (p0 :: rest).foldl (fun canvas point =>
        canvas ++ [DrawCall.drawCircle (p.dataToCanvas point.x point.y).1
          (p.dataToCanvas point.x point.y).2 p.config.pointRadius pointPaint]) canvas
    else canvas

/-- The `Plot::drawLabels`. -/
def Plot.drawLabels (b : Backend K) (p : Plot K) (canvas : Canvas K) : Canvas K :=
  let paint : Paint K := { color := p.config.axisColor }
  let canvas :=
    if !p.config.title.isEmpty then
      let fontSize : K := 18
      let bounds := b.measureText fontSize p.config.title
      canvas ++ [DrawCall.drawSimpleText p.config.title
        (((p.config.width : K) - bounds.1) / 2) 25 fontSize paint]
    else canvas
  let canvas :=
    if !p.config.xLabel.isEmpty then
      let fontSize : K := 14
      let bounds := b.measureText fontSize p.config.xLabel
      canvas ++ [DrawCall.drawSimpleText p.config.xLabel
        (((p.config.width : K) - bounds.1) / 2) ((p.config.height - 10 : Int) : K)
        fontSize paint]
    else canvas
  if !p.config.yLabel.isEmpty then
    let fontSize : K := 14
    let canvas := canvas ++ [DrawCall.save]
    let canvas := canvas ++ [DrawCall.translate 15 ((p.config.height.tdiv 2 : Int) : K)]
    let canvas := canvas ++ [DrawCall.rotate (-90)]
    let bounds := b.measureText fontSize p.config.yLabel
    let canvas := canvas ++ [DrawCall.drawSimpleText p.config.yLabel
      (-bounds.1 / 2) 0 fontSize paint]
    canvas ++ [DrawCall.restore]
  else canvas

/-! ## Rendering and export -/

/-- The local array `colors` of `Plot::render`. -/
def colors : List Nat :=
  [0xFF0000FF, 0xFFFF0000, 0xFF00AA00, 0xFFFF8800, 0xFF8800FF]

/-- The loop over the series in `Plot::render`, from index `i` on; `rest` holds
`series_[i], series_[i+1], ...`. -/
def Plot.drawSeriesLoop (p : Plot K) : Nat → List (DataSeries K) → Canvas K → Canvas K
  | _, [], canvas => canvas
  | i, s :: rest, canvas =>
    let color := colors.get ⟨i % 5, Nat.mod_lt i (by decide)⟩
    Plot.drawSeriesLoop p (i + 1) rest (p.drawSeries canvas s color)

/-- The `Plot::render`: the returned flag and the plot afterwards. -/
def Plot.render (b : Backend K) (p : Plot K) : Bool × Plot K :=
  let p := p.setupCanvas b
  match p.surface with
  | none => (false, p)
  | some surface =>
    let p := p.computeDataRange
    match surface.canvas with
    | none => (false, p)
    | some canvas =>
      let canvas := p.drawBackground canvas
      let canvas := p.drawGrid canvas
      let canvas := p.drawAxes b canvas
      let canvas := p.drawSeriesLoop 0 p.series canvas
      let canvas := p.drawLabels b canvas
      (true, { p with surface := some { surface with canvas := some canvas } })

/-- An operation on the file system. -/
inductive FileOp (K : Type) [LinearOrderedField K] where
  | openForWrite (filename : String)
  | write (filename : String) (image : Surface K)
deriving DecidableEq

/-- The outcome of `Plot::saveToFile`: the returned flag, the plot afterwards and the
file operations performed. -/
structure SaveResult (K : Type) [LinearOrderedField K] where
  ok : Bool
  plot : Plot K
  fileOps : List (FileOp K)
deriving DecidableEq

/-- The `Plot::saveToFile`. -/
def Plot.saveToFile (b : Backend K) (p : Plot K) (filename : String) : SaveResult K :=
  let r := p.render b
  if !r.1 then { ok := false, plot := r.2, fileOps := [] }
  else
    match r.2.surface with
    | none => { ok := false, plot := r.2, fileOps := [] }
    | some surface =>
      if !b.encodeOk surface then { ok := false, plot := r.2, fileOps := [] }
      else if !b.streamValid filename then
        { ok := false, plot := r.2, fileOps := [FileOp.openForWrite filename] }
      else
        { ok := b.writeOk filename surface, plot := r.2,
          fileOps := [FileOp.openForWrite filename, FileOp.write filename surface] }

/-- The `Plot::getCanvas`, as far as it changes the plot. -/
def Plot.getCanvas (b : Backend K) (p : Plot K) : Plot K :=
  p.setupCanvas b

/-! ## `Utils` -/

/-- The `Utils::linspace`. -/
def Utils.linspace (start end_ : K) (num : Int) : List (Point K) :=
  if num ≤ 0 then []
  else if num = 1 then [{ x := start, y := 0 }]
  else
    let step : K := (end_ - start) / ((num - 1 : Int) : K)
    (List.range num.toNat).foldl (fun points i =>
      points ++ [{ x := start + ((i : Int) : K) * step, y := 0 }]) []

/-- The `Utils::quickPlot`: the returned flag and the file operations performed. -/
def Utils.quickPlot (b : Backend K) (x y : List K) (filename title : String) :
    Bool × List (FileOp K) :=
  if x.length ≠ y.length ∨ x.isEmpty then (false, [])
  else
    let plot : Plot K := Plot.new 800 600
    let series : DataSeries K := { name := "Data", points := [] }
    let series := (List.range x.length).foldl (fun series i =>
      series.addPoint (x.getD i 0) (y.getD i 0)) series
    let plot := plot.addSeries series
    let plot :=
      if !title.isEmpty then { plot with config := { plot.config with title := title } }
      else plot
    let r := plot.saveToFile b filename
    (r.ok, r.fileOps)

/-! ## Vocabulary of the statements -/

/-- All points of a list of series, in order. -/
def allPoints : List (DataSeries K) → List (Point K)
  | [] => []
  | s :: rest => s.points ++ allPoints rest

/-- The tightest bounding box of a list of points: every point lies within the four bounds
and each bound is the coordinate of some point. -/
def IsBoundingBox (pts : List (Point K)) (r : Range K) : Prop :=
  (∀ q ∈ pts, r.xMin ≤ q.x ∧ q.x ≤ r.xMax ∧ r.yMin ≤ q.y ∧ q.y ≤ r.yMax) ∧
  (∃ q ∈ pts, q.x = r.xMin) ∧ (∃ q ∈ pts, q.x = r.xMax) ∧
  (∃ q ∈ pts, q.y = r.yMin) ∧ (∃ q ∈ pts, q.y = r.yMax)

/-- The bounds held in the loop state. -/
def RangeAcc.toRange (acc : RangeAcc K) : Range K :=
  { xMin := acc.xMin, xMax := acc.xMax, yMin := acc.yMin, yMax := acc.yMax }

/-- The cached range of a plot. -/
def Plot.range (p : Plot K) : Range K :=
  { xMin := p.xMin, xMax := p.xMax, yMin := p.yMin, yMax := p.yMax }

/-- The padding of an axis whose tight bounds are `lo` and `hi`: 5% of the span, or 0.5 when
the span is zero. -/
def padding (lo hi : K) : K :=
  if hi = lo then 0.5 else 0.05 * (hi - lo)

/-- A plot with one series of two points and a series without points. -/
def samplePlot : Plot ℚ :=
  ((Plot.new 800 600 : Plot ℚ).addSeries { name := "a", points := [⟨1, 2⟩, ⟨3, 2⟩] }).addSeries
    { name := "b", points := [] }

/-- A fresh plot to which one series without points was added. -/
def emptySeriesPlot : Plot ℚ :=
  (Plot.new 800 600 : Plot ℚ).addSeries { name := "Data", points := [] }

/-- A box widened on each axis by the padding of that axis. -/
def paddedBox (bb : Range K) : Range K :=
  { xMin := bb.xMin - padding bb.xMin bb.xMax
    xMax := bb.xMax + padding bb.xMin bb.xMax
    yMin := bb.yMin - padding bb.yMin bb.yMax
    yMax := bb.yMax + padding bb.yMin bb.yMax }

/-- The five layers of `Plot::render` applied in its order to a canvas. -/
def Plot.drawLayers (b : Backend K) (p : Plot K) (canvas : Canvas K) : Canvas K :=
  p.drawLabels b (p.drawSeriesLoop 0 p.series (p.drawAxes b (p.drawGrid
    (p.drawBackground canvas))))

/-- The states of a plot that the public interface of `class Plot` can produce: the
constructor followed by any sequence of `setConfig`, assignments through `getConfig()`,
`addSeries`, `clearSeries`, `render`, `saveToFile` and `getCanvas`, each against any backend. -/
inductive Reachable : Plot K → Prop where
  | new (width height : Int) : Reachable (Plot.new width height)
  | setConfig {p : Plot K} (config : PlotConfig K) : Reachable p → Reachable (p.setConfig config)
  | getConfig {p : Plot K} (config : PlotConfig K) :
      Reachable p → Reachable { p with config := config }
  | addSeries {p : Plot K} (series : DataSeries K) : Reachable p → Reachable (p.addSeries series)
  | clearSeries {p : Plot K} : Reachable p → Reachable p.clearSeries
  | render {p : Plot K} (b : Backend K) : Reachable p → Reachable (p.render b).2
  | saveToFile {p : Plot K} (b : Backend K) (filename : String) :
      Reachable p → Reachable (p.saveToFile b filename).plot
  | getCanvas {p : Plot K} (b : Backend K) : Reachable p → Reachable (p.getCanvas b)

/-- The cache is valid: when the range is marked computed and some series has a point, the
cached range is the padded tight bounding box of the points held. -/
def Plot.CacheValid (p : Plot K) : Prop :=
  p.rangeComputed = true → allPoints p.series ≠ [] →
    ∃ bb : Range K, IsBoundingBox (allPoints p.series) bb ∧ p.range = paddedBox bb

/-- A backend that allocates every surface of positive size. -/
def sampleBackend : Backend ℚ :=
  { allocOk := fun w h => decide (0 < w ∧ 0 < h)
    canvasOk := fun _ _ => true
    measureText := fun size text => (size * text.length, size)
    formatFixed1 := fun _ => "0.0"
    encodeOk := fun _ => true
    streamValid := fun _ => true
    writeOk := fun _ _ => true }

/-- The paint of a draw call, if it takes one. -/
def DrawCall.paint? : DrawCall K → Option (Paint K)
  | DrawCall.drawRect _ _ _ _ paint => some paint
  | DrawCall.drawLine _ _ _ _ paint => some paint
  | DrawCall.drawSimpleText _ _ _ _ paint => some paint
  | DrawCall.drawPath _ paint => some paint
  | DrawCall.drawCircle _ _ _ paint => some paint
  | _ => none

/-- The calls of the series layer: series `i`, in insertion order, drawn on an empty canvas
with entry `i % 5` of `colors`. -/
def Plot.seriesCalls (p : Plot K) : List (DrawCall K) :=
  p.series.enum.flatMap (fun is =>
    p.drawSeries [] is.2 (colors.get ⟨is.1 % 5, Nat.mod_lt is.1 (by decide)⟩))

/-- The calls one `render` issues with the state `p`: the concatenation of the layers. -/
def Plot.layerCalls (b : Backend K) (p : Plot K) : List (DrawCall K) :=
  p.drawBackground [] ++ p.drawGrid [] ++ p.drawAxes b [] ++ p.seriesCalls ++ p.drawLabels b []

/-- The canvas of the surface held by a plot. -/
def Plot.canvas? (p : Plot K) : Option (Canvas K) :=
  p.surface.bind (fun sf => sf.canvas)

/-- The plot `Utils::quickPlot` hands to `saveToFile`: a default plot holding the single
series "Data" with the points `(x[i], y[i])` and carrying the title. -/
def quickPlotPlot (x y : List K) (title : String) : Plot K :=
  { config := { width := 800, height := 600, title := title }
    series := [{ name := "Data", points := List.zipWith Point.mk x y }]
    surface := none
    xMin := 0, xMax := 1, yMin := 0, yMax := 1
    rangeComputed := false }

/-- The pixel positions a draw call of a series places: the vertices of a path and the
centre of a circle. -/
def DrawCall.vertices : DrawCall K → List (K × K)
  | DrawCall.drawPath path _ =>
    path.map (fun verb =>
      match verb with
      | PathVerb.moveTo x y => (x, y)
      | PathVerb.lineTo x y => (x, y))
  | DrawCall.drawCircle cx cy _ _ => [(cx, cy)]
  | _ => []

/-- A pixel position lies strictly inside the plotting rectangle of the configuration. -/
def PlotConfig.StrictlyInside (config : PlotConfig K) (pos : K × K) : Prop :=
  (config.marginLeft : K) < pos.1 ∧ pos.1 < (config.width : K) - (config.marginRight : K) ∧
  (config.marginTop : K) < pos.2 ∧ pos.2 < (config.height : K) - (config.marginBottom : K)

/-- The background layer written out: one fill of the full canvas rectangle in the
background colour. -/
def Plot.backgroundLayer (q : Plot K) : List (DrawCall K) :=
  [DrawCall.drawRect 0 0 (q.config.width : K) (q.config.height : K)
    { color := q.config.backgroundColor }]

/-- The grid layer written out: nothing when `showGrid` is off; otherwise 11 vertical lines
from the top to the bottom of the plotting rectangle, then 11 horizontal lines from its left
to its right, at tenths of its width and height (integer division), stroked 1 wide in the
grid colour. -/
def Plot.gridLayer (q : Plot K) : List (DrawCall K) :=
  if q.config.showGrid = true then
    (List.range 11).map (fun i : Nat =>
      DrawCall.drawLine
        ((q.config.marginLeft + ((i : Int) *
          (q.config.width - q.config.marginLeft - q.config.marginRight)).tdiv 10 : Int) : K)
        (q.config.marginTop : K)
        ((q.config.marginLeft + ((i : Int) *
          (q.config.width - q.config.marginLeft - q.config.marginRight)).tdiv 10 : Int) : K)
        ((q.config.height - q.config.marginBottom : Int) : K)
        { color := q.config.gridColor, strokeWidth := 1, style := PaintStyle.kStroke }) ++
    (List.range 11).map (fun i : Nat =>
      DrawCall.drawLine
        (q.config.marginLeft : K)
        ((q.config.marginTop + ((i : Int) *
          (q.config.height - q.config.marginTop - q.config.marginBottom)).tdiv 10 : Int) : K)
        ((q.config.width - q.config.marginRight : Int) : K)
        ((q.config.marginTop + ((i : Int) *
          (q.config.height - q.config.marginTop - q.config.marginBottom)).tdiv 10 : Int) : K)
        { color := q.config.gridColor, strokeWidth := 1, style := PaintStyle.kStroke })
  else []

/-- The axes layer written out: the bottom axis line and the left axis line, stroked 2 wide
in the axis colour; then for `i = 0..5` a tick of length 5 below the bottom axis at fifths
of the width, each followed by its label, the text of `xMin + i * (xMax - xMin) / 5` centred
under the tick; then for `i = 0..5` a tick of length 5 left of the left axis at fifths of
the height counted from the bottom, each followed by its label, the text of
`yMin + i * (yMax - yMin) / 5` right-aligned 10 left of the axis and centred on the tick.
Ticks and labels are filled in the axis colour, the labels at font size 12. -/
def Plot.axesLayer (b : Backend K) (q : Plot K) : List (DrawCall K) :=
  [DrawCall.drawLine (q.config.marginLeft : K)
      ((q.config.height - q.config.marginBottom : Int) : K)
      ((q.config.marginLeft +
        (q.config.width - q.config.marginLeft - q.config.marginRight) : Int) : K)
      ((q.config.height - q.config.marginBottom : Int) : K)
      { color := q.config.axisColor, strokeWidth := 2, style := PaintStyle.kStroke },
    DrawCall.drawLine (q.config.marginLeft : K) (q.config.marginTop : K)
      (q.config.marginLeft : K)
      ((q.config.marginTop +
        (q.config.height - q.config.marginTop - q.config.marginBottom) : Int) : K)
      { color := q.config.axisColor, strokeWidth := 2, style := PaintStyle.kStroke }] ++
  (List.range 6).flatMap (fun i : Nat =>
    [DrawCall.drawLine
        ((q.config.marginLeft + ((i : Int) *
          (q.config.width - q.config.marginLeft - q.config.marginRight)).tdiv 5 : Int) : K)
        ((q.config.height - q.config.marginBottom : Int) : K)
        ((q.config.marginLeft + ((i : Int) *
          (q.config.width - q.config.marginLeft - q.config.marginRight)).tdiv 5 : Int) : K)
        (((q.config.height - q.config.marginBottom : Int) : K) + 5)
        { color := q.config.axisColor, strokeWidth := 2, style := PaintStyle.kFill },
      DrawCall.drawSimpleText
        (b.formatFixed1 (q.xMin + (i : K) * (q.xMax - q.xMin) / 5))
        (((q.config.marginLeft + ((i : Int) *
          (q.config.width - q.config.marginLeft - q.config.marginRight)).tdiv 5 : Int) : K) -
          (b.measureText 12
            (b.formatFixed1 (q.xMin + (i : K) * (q.xMax - q.xMin) / 5))).1 / 2)
        (((q.config.height - q.config.marginBottom : Int) : K) + 20)
        12
        { color := q.config.axisColor, strokeWidth := 2, style := PaintStyle.kFill }]) ++
  (List.range 6).flatMap (fun i : Nat =>
    [DrawCall.drawLine
        ((q.config.marginLeft : K) - 5)
        ((q.config.marginTop +
          (q.config.height - q.config.marginTop - q.config.marginBottom) - ((i : Int) *
          (q.config.height - q.config.marginTop - q.config.marginBottom)).tdiv 5 : Int) : K)
        (q.config.marginLeft : K)
        ((q.config.marginTop +
          (q.config.height - q.config.marginTop - q.config.marginBottom) - ((i : Int) *
          (q.config.height - q.config.marginTop - q.config.marginBottom)).tdiv 5 : Int) : K)
        { color := q.config.axisColor, strokeWidth := 2, style := PaintStyle.kFill },
      DrawCall.drawSimpleText
        (b.formatFixed1 (q.yMin + (i : K) * (q.yMax - q.yMin) / 5))
        ((q.config.marginLeft : K) -
          (b.measureText 12
            (b.formatFixed1 (q.yMin + (i : K) * (q.yMax - q.yMin) / 5))).1 - 10)
        (((q.config.marginTop +
          (q.config.height - q.config.marginTop - q.config.marginBottom) - ((i : Int) *
          (q.config.height - q.config.marginTop - q.config.marginBottom)).tdiv 5 : Int) : K) +
          (b.measureText 12
            (b.formatFixed1 (q.yMin + (i : K) * (q.yMax - q.yMin) / 5))).2 / 2)
        12
        { color := q.config.axisColor, strokeWidth := 2, style := PaintStyle.kFill }])

/-- The calls of one series written out: nothing for a series without points; otherwise one
path that starts at the image of the first point and has a line to the image of every
further point in order, stroked antialiased with the line width in the given colour, and,
when `showPoints` is on, after it one filled antialiased circle of the point radius in the
same colour at the image of every point in order. -/
def Plot.seriesLayer (q : Plot K) (s : DataSeries K) (color : Nat) : List (DrawCall K) :=
  match s.points with
  | [] => []
  | p0 :: rest =>
    [DrawCall.drawPath
      (PathVerb.moveTo (q.dataToCanvas p0.x p0.y).1 (q.dataToCanvas p0.x p0.y).2 ::
        rest.map (fun pt =>
          PathVerb.lineTo (q.dataToCanvas pt.x pt.y).1 (q.dataToCanvas pt.x pt.y).2))
      { color := color, strokeWidth := q.config.lineWidth, style := PaintStyle.kStroke,
        antiAlias := true }] ++
    (if q.config.showPoints = true then
      (p0 :: rest).map (fun pt =>
        DrawCall.drawCircle (q.dataToCanvas pt.x pt.y).1 (q.dataToCanvas pt.x pt.y).2
          q.config.pointRadius
          { color := color, style := PaintStyle.kFill, antiAlias := true })
    else [])

/-- The label layer written out, all text filled in the axis colour: the title, if not
empty, at size 18 centred horizontally at height 25; the x label, if not empty, at size 14
centred horizontally 10 above the bottom edge; the y label, if not empty, at size 14 drawn
centred at the origin between `save` and `restore`, after a translation to
`(15, height / 2)` and a rotation by -90 degrees. -/
def Plot.labelsLayer (b : Backend K) (q : Plot K) : List (DrawCall K) :=
  (if q.config.title = "" then []
    else [DrawCall.drawSimpleText q.config.title
      (((q.config.width : K) - (b.measureText 18 q.config.title).1) / 2) 25 18
      { color := q.config.axisColor }]) ++
  (if q.config.xLabel = "" then []
    else [DrawCall.drawSimpleText q.config.xLabel
      (((q.config.width : K) - (b.measureText 14 q.config.xLabel).1) / 2)
      ((q.config.height - 10 : Int) : K) 14
      { color := q.config.axisColor }]) ++
  (if q.config.yLabel = "" then []
    else [DrawCall.save,
      DrawCall.translate 15 ((q.config.height.tdiv 2 : Int) : K),
      DrawCall.rotate (-90),
      DrawCall.drawSimpleText q.config.yLabel
        (-(b.measureText 14 q.config.yLabel).1 / 2) 0 14
        { color := q.config.axisColor },
      DrawCall.restore])

/-! # Properties -/

/-! ## Bounding boxes -/

theorem allPoints_append (l₁ l₂ : List (DataSeries K)) :
    allPoints (l₁ ++ l₂) = allPoints l₁ ++ allPoints l₂ := by
  induction l₁ with
  | nil => rfl
  | cons s rest ih => simp [allPoints, ih]

theorem allPoints_eq_nil_iff (l : List (DataSeries K)) :
    allPoints l = [] ↔ ∀ s ∈ l, s.points = [] := by
  induction l with
  | nil => simp [allPoints]
  | cons s rest ih => simp [allPoints, ih]

theorem IsBoundingBox.ne_nil {pts : List (Point K)} {r : Range K} (h : IsBoundingBox pts r) :
    pts ≠ [] := by
  obtain ⟨-, ⟨q, hq, -⟩, -⟩ := h
  exact List.ne_nil_of_mem hq

theorem IsBoundingBox.unique {pts : List (Point K)} {r r' : Range K}
    (h : IsBoundingBox pts r) (h' : IsBoundingBox pts r') : r = r' := by
  obtain ⟨hb, ⟨a, ha, hax⟩, ⟨b, hb1, hbx⟩, ⟨c, hc, hcy⟩, ⟨d, hd, hdy⟩⟩ := h
  obtain ⟨hb', ⟨a', ha', hax'⟩, ⟨b', hb1', hbx'⟩, ⟨c', hc', hcy'⟩, ⟨d', hd', hdy'⟩⟩ := h'
  cases r with
  | mk x0 x1 y0 y1 =>
  cases r' with
  | mk x0' x1' y0' y1' =>
  simp only at hb hb' hax hbx hcy hdy hax' hbx' hcy' hdy'
  have e1 : x0 = x0' := le_antisymm (hax' ▸ (hb a' ha').1) (hax ▸ (hb' a ha).1)
  have e2 : x1 = x1' := le_antisymm (hbx ▸ (hb' b hb1).2.1) (hbx' ▸ (hb b' hb1').2.1)
  have e3 : y0 = y0' := le_antisymm (hcy' ▸ (hb c' hc').2.2.1) (hcy ▸ (hb' c hc).2.2.1)
  have e4 : y1 = y1' := le_antisymm (hdy ▸ (hb' d hd).2.2.2) (hdy' ▸ (hb d' hd').2.2.2)
  subst e1 e2 e3 e4
  rfl

theorem IsBoundingBox.singleton (p : Point K) :
    IsBoundingBox [p] { xMin := p.x, xMax := p.x, yMin := p.y, yMax := p.y } := by
  refine ⟨?_, ⟨p, by simp, rfl⟩, ⟨p, by simp, rfl⟩, ⟨p, by simp, rfl⟩, ⟨p, by simp, rfl⟩⟩
  intro q hq
  simp only [List.mem_singleton] at hq
  subst hq
  simp

theorem IsBoundingBox.merge {l₁ l₂ : List (Point K)} {r₁ r₂ : Range K}
    (h₁ : IsBoundingBox l₁ r₁) (h₂ : IsBoundingBox l₂ r₂) :
    IsBoundingBox (l₁ ++ l₂)
      { xMin := min r₁.xMin r₂.xMin, xMax := max r₁.xMax r₂.xMax,
        yMin := min r₁.yMin r₂.yMin, yMax := max r₁.yMax r₂.yMax } := by
  obtain ⟨hb, ⟨a, ha, hax⟩, ⟨b, hb1, hbx⟩, ⟨c, hc, hcy⟩, ⟨d, hd, hdy⟩⟩ := h₁
  obtain ⟨hb', ⟨a', ha', hax'⟩, ⟨b', hb1', hbx'⟩, ⟨c', hc', hcy'⟩, ⟨d', hd', hdy'⟩⟩ := h₂
  refine ⟨?_, ?_, ?_, ?_, ?_⟩
  · intro q hq
    rcases List.mem_append.1 hq with hq | hq
    · obtain ⟨h1, h2, h3, h4⟩ := hb q hq
      exact ⟨le_trans (min_le_left _ _) h1, le_trans h2 (le_max_left _ _),
        le_trans (min_le_left _ _) h3, le_trans h4 (le_max_left _ _)⟩
    · obtain ⟨h1, h2, h3, h4⟩ := hb' q hq
      exact ⟨le_trans (min_le_right _ _) h1, le_trans h2 (le_max_right _ _),
        le_trans (min_le_right _ _) h3, le_trans h4 (le_max_right _ _)⟩
  · rcases min_choice r₁.xMin r₂.xMin with e | e
    · exact ⟨a, List.mem_append_left _ ha, by simp only [e, hax]⟩
    · exact ⟨a', List.mem_append_right _ ha', by simp only [e, hax']⟩
  · rcases max_choice r₁.xMax r₂.xMax with e | e
    · exact ⟨b, List.mem_append_left _ hb1, by simp only [e, hbx]⟩
    · exact ⟨b', List.mem_append_right _ hb1', by simp only [e, hbx']⟩
  · rcases min_choice r₁.yMin r₂.yMin with e | e
    · exact ⟨c, List.mem_append_left _ hc, by simp only [e, hcy]⟩
    · exact ⟨c', List.mem_append_right _ hc', by simp only [e, hcy']⟩
  · rcases max_choice r₁.yMax r₂.yMax with e | e
    · exact ⟨d, List.mem_append_left _ hd, by simp only [e, hdy]⟩
    · exact ⟨d', List.mem_append_right _ hd', by simp only [e, hdy']⟩

theorem IsBoundingBox.congr {l l' : List (Point K)} {r : Range K}
    (hl : ∀ q, q ∈ l ↔ q ∈ l') (h : IsBoundingBox l r) : IsBoundingBox l' r := by
  obtain ⟨hb, ⟨a, ha, hax⟩, ⟨b, hb1, hbx⟩, ⟨c, hc, hcy⟩, ⟨d, hd, hdy⟩⟩ := h
  exact ⟨fun q hq => hb q ((hl q).2 hq), ⟨a, (hl a).1 ha, hax⟩, ⟨b, (hl b).1 hb1, hbx⟩,
    ⟨c, (hl c).1 hc, hcy⟩, ⟨d, (hl d).1 hd, hdy⟩⟩

theorem getRangeStep_eq (r : Range K) (p : Point K) :
    getRangeStep r p =
      { xMin := min r.xMin ({ xMin := p.x, xMax := p.x, yMin := p.y, yMax := p.y } : Range K).xMin,
        xMax := max r.xMax ({ xMin := p.x, xMax := p.x, yMin := p.y, yMax := p.y } : Range K).xMax,
        yMin := min r.yMin ({ xMin := p.x, xMax := p.x, yMin := p.y, yMax := p.y } : Range K).yMin,
        yMax := max r.yMax ({ xMin := p.x, xMax := p.x, yMin := p.y, yMax := p.y } : Range K).yMax } :=
  rfl

theorem foldl_getRangeStep_isBoundingBox (pts : List (Point K)) :
    ∀ (seen : List (Point K)) (r : Range K), IsBoundingBox seen r →
      IsBoundingBox (seen ++ pts) (pts.foldl getRangeStep r) := by
  induction pts with
  | nil => intro seen r h; simpa using h
  | cons p rest ih =>
    intro seen r h
    have hstep : IsBoundingBox (seen ++ [p]) (getRangeStep r p) := by
      rw [getRangeStep_eq]
      exact h.merge (IsBoundingBox.singleton p)
    have := ih (seen ++ [p]) (getRangeStep r p) hstep
    simpa using this

theorem getRange_isBoundingBox (s : DataSeries K) (h : s.points ≠ []) :
    IsBoundingBox s.points s.getRange := by
  unfold DataSeries.getRange
  cases hp : s.points with
  | nil => exact absurd hp h
  | cons p0 rest =>
    simp only
    have := foldl_getRangeStep_isBoundingBox (p0 :: rest) [p0] _ (IsBoundingBox.singleton p0)
    refine this.congr ?_
    intro q
    simp

/-! ## Range aggregation -/

theorem rangeLoop_invariant (ss : List (DataSeries K)) :
    ∀ (seen : List (DataSeries K)) (acc : RangeAcc K),
      (acc.first = true → allPoints seen = []) →
      (acc.first = false → IsBoundingBox (allPoints seen) acc.toRange) →
      ((ss.foldl rangeLoopBody acc).first = true →
          allPoints (seen ++ ss) = [] ∧ ss.foldl rangeLoopBody acc = acc) ∧
      ((ss.foldl rangeLoopBody acc).first = false →
          IsBoundingBox (allPoints (seen ++ ss)) (ss.foldl rangeLoopBody acc).toRange) := by
  induction ss with
  | nil =>
    intro seen acc h1 h2
    simpa using ⟨h1, h2⟩
  | cons s rest ih =>
    intro seen acc h1 h2
    have key : ((rangeLoopBody acc s).first = true →
          allPoints (seen ++ [s]) = [] ∧ rangeLoopBody acc s = acc) ∧
        ((rangeLoopBody acc s).first = false →
          IsBoundingBox (allPoints (seen ++ [s])) (rangeLoopBody acc s).toRange) := by
      unfold rangeLoopBody
      by_cases hs : s.points = []
      · simp only [hs, List.isEmpty_nil, if_true]
        have e : allPoints (seen ++ [s]) = allPoints seen := by
          simp [allPoints_append, allPoints, hs]
        rw [e]
        exact ⟨fun h => ⟨h1 h, trivial⟩, h2⟩
      · have hne : s.points.isEmpty = false := by
          cases hp : s.points with
          | nil => exact absurd hp hs
          | cons a l => rfl
        have hbb := getRange_isBoundingBox s hs
        simp only [hne, Bool.false_eq_true, if_false]
        by_cases hf : acc.first = true
        · simp only [hf, if_true, Bool.false_eq_true, false_implies, true_and, true_implies]
          have e : allPoints (seen ++ [s]) = s.points := by
            simp [allPoints_append, allPoints, h1 hf]
          rw [e]
          exact hbb
        · have hf' : acc.first = false := by simpa using hf
          simp only [hf', Bool.false_eq_true, if_false, false_implies, true_and, true_implies]
          have e : allPoints (seen ++ [s]) = allPoints seen ++ s.points := by
            simp [allPoints_append, allPoints]
          rw [e]
          exact (h2 hf').merge hbb
    have := ih (seen ++ [s]) (rangeLoopBody acc s)
      (fun h => (key.1 h).1) key.2
    simp only [List.append_assoc, List.singleton_append] at this
    simp only [List.foldl_cons]
    refine ⟨fun h => ?_, this.2⟩
    obtain ⟨h3, h4⟩ := this.1 h
    refine ⟨h3, ?_⟩
    rw [h4]
    rw [h4] at h
    exact (key.1 h).2

/-- With at least one point among the series the loop ends with the bounding box of all
points, whatever the bounds it started from. -/
theorem rangeLoop_isBoundingBox (ss : List (DataSeries K)) (x0 x1 y0 y1 : K)
    (h : allPoints ss ≠ []) :
    IsBoundingBox (allPoints ss)
      (ss.foldl rangeLoopBody
        { xMin := x0, xMax := x1, yMin := y0, yMax := y1, first := true }).toRange := by
  have := rangeLoop_invariant ss []
    { xMin := x0, xMax := x1, yMin := y0, yMax := y1, first := true }
    (fun _ => rfl) (fun hf => by simp at hf)
  simp only [List.nil_append] at this
  cases hf : (ss.foldl rangeLoopBody
      { xMin := x0, xMax := x1, yMin := y0, yMax := y1, first := true }).first with
  | true => exact absurd (this.1 hf).1 h
  | false => exact this.2 hf

/-- With no point among the series the loop leaves its state as it was. -/
theorem rangeLoop_no_points (ss : List (DataSeries K)) (acc : RangeAcc K)
    (hacc : acc.first = true) (h : allPoints ss = []) :
    ss.foldl rangeLoopBody acc = acc := by
  have := rangeLoop_invariant ss [] acc (fun _ => rfl) (fun hf => by simp [hacc] at hf)
  simp only [List.nil_append] at this
  cases hf : (ss.foldl rangeLoopBody acc).first with
  | true => exact (this.1 hf).2
  | false => exact absurd h (this.2 hf).ne_nil

theorem padding_pos (lo hi : K) (h : lo ≤ hi) :
    0 < (if (hi - lo) * 0.05 = 0 then (0.5 : K) else (hi - lo) * 0.05) := by
  split_ifs with h0
  · norm_num
  · have h1 : 0 ≤ (hi - lo) * (0.05 : K) := by
      have : (0 : K) ≤ hi - lo := sub_nonneg.2 h
      have h5 : (0 : K) ≤ 0.05 := by norm_num
      exact mul_nonneg this h5
    exact lt_of_le_of_ne h1 (Ne.symm h0)

theorem padding_eq (lo hi : K) :
    (if (hi - lo) * 0.05 = 0 then (0.5 : K) else (hi - lo) * 0.05) =
      (if hi = lo then (0.5 : K) else 0.05 * (hi - lo)) := by
  have h5 : (0.05 : K) ≠ 0 := by norm_num
  by_cases h : hi = lo
  · simp [h]
  · have : (hi - lo) * (0.05 : K) ≠ 0 := mul_ne_zero (sub_ne_zero.2 h) h5
    rw [if_neg this, if_neg h, mul_comm]

theorem IsBoundingBox.le {pts : List (Point K)} {r : Range K} (h : IsBoundingBox pts r) :
    r.xMin ≤ r.xMax ∧ r.yMin ≤ r.yMax := by
  obtain ⟨hb, ⟨a, ha, hax⟩, -, ⟨c, hc, hcy⟩, -⟩ := h
  exact ⟨hax ▸ (hb a ha).2.1, hcy ▸ (hb c hc).2.2.2⟩

theorem computeDataRange_of_dirty (p : Plot K) (hd : p.rangeComputed = false)
    (hs : p.series ≠ []) (acc : RangeAcc K)
    (hacc : acc = p.series.foldl rangeLoopBody
      { xMin := p.xMin, xMax := p.xMax, yMin := p.yMin, yMax := p.yMax, first := true }) :
    p.computeDataRange =
      { p with
        xMin := acc.xMin - padding acc.xMin acc.xMax
        xMax := acc.xMax + padding acc.xMin acc.xMax
        yMin := acc.yMin - padding acc.yMin acc.yMax
        yMax := acc.yMax + padding acc.yMin acc.yMax
        rangeComputed := true } := by
  have hne : p.series.isEmpty = false := by
    cases hp : p.series with
    | nil => exact absurd hp hs
    | cons a l => rfl
  subst hacc
  simp only [Plot.computeDataRange, hd, hne, Bool.or_self, Bool.false_eq_true, if_false,
    padding_eq, padding]

theorem computeDataRange_of_clean (p : Plot K) (h : p.rangeComputed = true) :
    p.computeDataRange = p := by
  simp [Plot.computeDataRange, h]

theorem computeDataRange_of_no_series (p : Plot K) (h : p.series = []) :
    p.computeDataRange = p := by
  simp [Plot.computeDataRange, h]

/-! ## Claims on the range and the coordinate map -/

/-- C1: on a dirty plot whose series hold at least one point, `computeDataRange` caches the
padded tight bounding box of all points of all series: `getRange` is exact per series, and
with `bb` the tight box of all points the cached bounds are `bb.xMin - px`, `bb.xMax + px`,
`bb.yMin - py`, `bb.yMax + py`, the padding being 5% of the span or 0.5 for a zero span; the
bounds cached before the call play no role. -/
theorem computeDataRange_padded_bounding_box (p : Plot K)
    (hdirty : p.rangeComputed = false) (hpts : allPoints p.series ≠ []) :
    (∀ s ∈ p.series, s.points ≠ [] → IsBoundingBox s.points s.getRange) ∧
    (∃ bb : Range K, IsBoundingBox (allPoints p.series) bb ∧
      p.computeDataRange.xMin = bb.xMin - padding bb.xMin bb.xMax ∧
      p.computeDataRange.xMax = bb.xMax + padding bb.xMin bb.xMax ∧
      p.computeDataRange.yMin = bb.yMin - padding bb.yMin bb.yMax ∧
      p.computeDataRange.yMax = bb.yMax + padding bb.yMin bb.yMax) ∧
    (∀ p' : Plot K, p'.series = p.series → p'.rangeComputed = false →
      p'.computeDataRange.range = p.computeDataRange.range) := by
  have hs : p.series ≠ [] := by
    intro h
    exact hpts (by rw [h]; rfl)
  refine ⟨fun s _ hne => getRange_isBoundingBox s hne, ?_, ?_⟩
  · refine ⟨_, rangeLoop_isBoundingBox p.series p.xMin p.xMax p.yMin p.yMax hpts, ?_⟩
    rw [computeDataRange_of_dirty p hdirty hs _ rfl]
    exact ⟨rfl, rfl, rfl, rfl⟩
  · intro p' hser hd'
    have h1 := rangeLoop_isBoundingBox p.series p.xMin p.xMax p.yMin p.yMax hpts
    have h2 := rangeLoop_isBoundingBox p.series p'.xMin p'.xMax p'.yMin p'.yMax hpts
    have e := h2.unique h1
    rw [computeDataRange_of_dirty p hdirty hs _ rfl,
      computeDataRange_of_dirty p' hd' (hser ▸ hs) _ rfl, hser]
    simp only [RangeAcc.toRange, Range.mk.injEq] at e
    obtain ⟨e1, e2, e3, e4⟩ := e
    simp only [Plot.range, e1, e2, e3, e4]

theorem computeDataRange_padded_bounding_box_witness :
    (samplePlot.rangeComputed = false ∧ allPoints samplePlot.series ≠ []) ∧
    ((∀ s ∈ samplePlot.series, s.points ≠ [] → IsBoundingBox s.points s.getRange) ∧
    (∃ bb : Range ℚ, IsBoundingBox (allPoints samplePlot.series) bb ∧
      samplePlot.computeDataRange.xMin = bb.xMin - padding bb.xMin bb.xMax ∧
      samplePlot.computeDataRange.xMax = bb.xMax + padding bb.xMin bb.xMax ∧
      samplePlot.computeDataRange.yMin = bb.yMin - padding bb.yMin bb.yMax ∧
      samplePlot.computeDataRange.yMax = bb.yMax + padding bb.yMin bb.yMax) ∧
    (∀ p' : Plot ℚ, p'.series = samplePlot.series → p'.rangeComputed = false →
      p'.computeDataRange.range = samplePlot.computeDataRange.range)) :=
  ⟨⟨rfl, by simp [samplePlot, Plot.addSeries, Plot.new, allPoints]⟩,
    computeDataRange_padded_bounding_box samplePlot rfl
      (by simp [samplePlot, Plot.addSeries, Plot.new, allPoints])⟩

/-- On the sample plot the cached range becomes `[0.9, 3.1] × [1.5, 2.5]`. -/
theorem computeDataRange_samplePlot :
    samplePlot.computeDataRange.range =
      { xMin := 9 / 10, xMax := 31 / 10, yMin := 3 / 2, yMax := 5 / 2 } := by
  norm_num [samplePlot, Plot.computeDataRange, Plot.addSeries, Plot.new, rangeLoopBody,
    DataSeries.getRange, getRangeStep, Plot.range]

/-- With series that hold no point, a dirty plot with at least one series gets its previous
range padded and marked as computed. -/
theorem computeDataRange_of_no_points (p : Plot K) (hdirty : p.rangeComputed = false)
    (hs : p.series ≠ []) (hpts : allPoints p.series = []) :
    p.computeDataRange =
      { p with
        xMin := p.xMin - padding p.xMin p.xMax
        xMax := p.xMax + padding p.xMin p.xMax
        yMin := p.yMin - padding p.yMin p.yMax
        yMax := p.yMax + padding p.yMin p.yMax
        rangeComputed := true } := by
  rw [computeDataRange_of_dirty p hdirty hs _ rfl, rangeLoop_no_points _ _ rfl hpts]

/-- C2, at the failing input: a fresh plot holding one series without points has no point
at all, its cached range is `[0, 1] × [0, 1]`, and `computeDataRange` replaces it by
`[-0.05, 1.05] × [-0.05, 1.05]` and marks it computed. -/
theorem computeDataRange_emptySeriesPlot :
    emptySeriesPlot.series ≠ [] ∧
    (∀ s ∈ emptySeriesPlot.series, s.points = []) ∧
    emptySeriesPlot.range = { xMin := 0, xMax := 1, yMin := 0, yMax := 1 } ∧
    emptySeriesPlot.computeDataRange.range =
      { xMin := -1 / 20, xMax := 21 / 20, yMin := -1 / 20, yMax := 21 / 20 } ∧
    emptySeriesPlot.computeDataRange.range ≠ emptySeriesPlot.range ∧
    emptySeriesPlot.computeDataRange.rangeComputed = true := by
  refine ⟨?_, ?_, ?_, ?_, ?_, ?_⟩ <;>
  norm_num [emptySeriesPlot, Plot.computeDataRange, Plot.addSeries, Plot.new, rangeLoopBody,
    Plot.range]

/-- C4: with a positive plotting rectangle and a non-degenerate range `dataToCanvas` is the
affine map of the specification; `canvasX` increases strictly with `x`, `canvasY` decreases
strictly with `y`, `(xMin, yMin)` goes to the bottom-left corner and `(xMax, yMax)` to the
top-right corner of the plotting rectangle. -/
theorem dataToCanvas_affine (p : Plot K)
    (hW : 0 < p.config.width - p.config.marginLeft - p.config.marginRight)
    (hH : 0 < p.config.height - p.config.marginTop - p.config.marginBottom)
    (hx : p.xMin < p.xMax) (hy : p.yMin < p.yMax) :
    (∀ x y : K, p.dataToCanvas x y =
      ((p.config.marginLeft : K) + (x - p.xMin) / (p.xMax - p.xMin) *
          ((p.config.width : K) - (p.config.marginLeft : K) - (p.config.marginRight : K)),
       (p.config.marginTop : K) +
          ((p.config.height : K) - (p.config.marginTop : K) - (p.config.marginBottom : K)) -
          (y - p.yMin) / (p.yMax - p.yMin) *
          ((p.config.height : K) - (p.config.marginTop : K) - (p.config.marginBottom : K)))) ∧
    (∀ x x' y y' : K, x < x' → (p.dataToCanvas x y).1 < (p.dataToCanvas x' y').1) ∧
    (∀ x x' y y' : K, y < y' → (p.dataToCanvas x' y').2 < (p.dataToCanvas x y).2) ∧
    p.dataToCanvas p.xMin p.yMin =
      ((p.config.marginLeft : K), (p.config.height : K) - (p.config.marginBottom : K)) ∧
    p.dataToCanvas p.xMax p.yMax =
      ((p.config.width : K) - (p.config.marginRight : K), (p.config.marginTop : K)) := by
  have hW' : (0 : K) <
      ((p.config.width - p.config.marginLeft - p.config.marginRight : Int) : K) := by
    exact_mod_cast hW
  have hH' : (0 : K) <
      ((p.config.height - p.config.marginTop - p.config.marginBottom : Int) : K) := by
    exact_mod_cast hH
  have hdx : 0 < p.xMax - p.xMin := sub_pos.2 hx
  have hdy : 0 < p.yMax - p.yMin := sub_pos.2 hy
  refine ⟨?_, ?_, ?_, ?_, ?_⟩
  · intro x y
    simp only [Plot.dataToCanvas]
    push_cast
    rfl
  · intro x x' y y' hlt
    simp only [Plot.dataToCanvas]
    have : (x - p.xMin) / (p.xMax - p.xMin) < (x' - p.xMin) / (p.xMax - p.xMin) :=
      div_lt_div_of_pos_right (by linarith) hdx
    have := mul_lt_mul_of_pos_right this hW'
    linarith
  · intro x x' y y' hlt
    simp only [Plot.dataToCanvas]
    have : (y - p.yMin) / (p.yMax - p.yMin) < (y' - p.yMin) / (p.yMax - p.yMin) :=
      div_lt_div_of_pos_right (by linarith) hdy
    have := mul_lt_mul_of_pos_right this hH'
    linarith
  · simp only [Plot.dataToCanvas, sub_self, zero_div, zero_mul, add_zero, sub_zero]
    push_cast
    congr 1
    ring
  · simp only [Plot.dataToCanvas, div_self (ne_of_gt hdx), div_self (ne_of_gt hdy), one_mul]
    push_cast
    congr 1 <;> ring

theorem dataToCanvas_affine_witness :
    ((0 : Int) < (Plot.new 800 600 : Plot ℚ).config.width -
        (Plot.new 800 600 : Plot ℚ).config.marginLeft -
        (Plot.new 800 600 : Plot ℚ).config.marginRight ∧
      (0 : Int) < (Plot.new 800 600 : Plot ℚ).config.height -
        (Plot.new 800 600 : Plot ℚ).config.marginTop -
        (Plot.new 800 600 : Plot ℚ).config.marginBottom ∧
      (Plot.new 800 600 : Plot ℚ).xMin < (Plot.new 800 600 : Plot ℚ).xMax ∧
      (Plot.new 800 600 : Plot ℚ).yMin < (Plot.new 800 600 : Plot ℚ).yMax) ∧
    (∀ x x' y y' : ℚ, x < x' →
      ((Plot.new 800 600 : Plot ℚ).dataToCanvas x y).1 <
        ((Plot.new 800 600 : Plot ℚ).dataToCanvas x' y').1) :=
  ⟨⟨by decide, by decide, by norm_num [Plot.new], by norm_num [Plot.new]⟩,
    (dataToCanvas_affine (Plot.new 800 600 : Plot ℚ) (by decide) (by decide)
      (by norm_num [Plot.new]) (by norm_num [Plot.new])).2.1⟩

/-! ## Rendering and reachable states -/

theorem setupCanvas_eq (b : Backend K) (p : Plot K) :
    p.setupCanvas b = { p with surface := (p.setupCanvas b).surface } := by
  unfold Plot.setupCanvas
  cases p.surface with
  | none => rfl
  | some s => by_cases h : s.width ≠ p.config.width ∨ s.height ≠ p.config.height <;> simp [h]

theorem computeDataRange_surface (p : Plot K) (s : Option (Surface K)) :
    ({ p with surface := s } : Plot K).computeDataRange =
      { p.computeDataRange with surface := s } := by
  unfold Plot.computeDataRange
  by_cases h : (p.rangeComputed || p.series.isEmpty) = true
  · simp only [h, if_true]
  · simp only [h, if_false]
    rfl

theorem drawSeries_surface (p : Plot K) (s : Option (Surface K)) (canvas : Canvas K)
    (series : DataSeries K) (color : Nat) :
    ({ p with surface := s } : Plot K).drawSeries canvas series color =
      p.drawSeries canvas series color := rfl

theorem drawSeriesLoop_surface (p : Plot K) (s : Option (Surface K))
    (ss : List (DataSeries K)) :
    ∀ (i : Nat) (canvas : Canvas K),
      ({ p with surface := s } : Plot K).drawSeriesLoop i ss canvas =
        p.drawSeriesLoop i ss canvas := by
  induction ss with
  | nil => intro i canvas; rfl
  | cons a rest ih =>
    intro i canvas
    simp only [Plot.drawSeriesLoop]
    rw [ih, drawSeries_surface]

theorem drawLayers_surface (b : Backend K) (p : Plot K) (s : Option (Surface K))
    (canvas : Canvas K) :
    ({ p with surface := s } : Plot K).drawLayers b canvas = p.drawLayers b canvas := by
  have e1 : ∀ c, ({ p with surface := s } : Plot K).drawBackground c = p.drawBackground c :=
    fun _ => rfl
  have e2 : ∀ c, ({ p with surface := s } : Plot K).drawGrid c = p.drawGrid c := fun _ => rfl
  have e3 : ∀ c, ({ p with surface := s } : Plot K).drawAxes b c = p.drawAxes b c :=
    fun _ => rfl
  have e4 : ∀ c, ({ p with surface := s } : Plot K).drawLabels b c = p.drawLabels b c :=
    fun _ => rfl
  simp only [Plot.drawLayers, e1, e2, e3, e4, drawSeriesLoop_surface]

/-- The three ways `render` ends: no surface, a surface without canvas, or all layers drawn
on the canvas of the surface with the range of `computeDataRange`. -/
theorem render_cases (b : Backend K) (p : Plot K) :
    ((p.setupCanvas b).surface = none ∧ p.render b = (false, { p with surface := none })) ∨
    (∃ sf, (p.setupCanvas b).surface = some sf ∧ sf.canvas = none ∧
      p.render b = (false, { p.computeDataRange with surface := some sf })) ∨
    (∃ sf c0, (p.setupCanvas b).surface = some sf ∧ sf.canvas = some c0 ∧
      p.render b = (true, { p.computeDataRange with
        surface := some { sf with canvas := some (p.computeDataRange.drawLayers b c0) } })) := by
  have e := setupCanvas_eq b p
  cases hs : (p.setupCanvas b).surface with
  | none =>
    left
    refine ⟨rfl, ?_⟩
    rw [hs] at e
    simp only [Plot.render, hs]
    rw [e]
  | some sf =>
    right
    rw [hs] at e
    cases hc : sf.canvas with
    | none =>
      left
      refine ⟨sf, rfl, hc, ?_⟩
      simp only [Plot.render, hs, hc]
      rw [e, computeDataRange_surface]
    | some c0 =>
      right
      refine ⟨sf, c0, rfl, hc, ?_⟩
      simp only [Plot.render, hs, hc]
      rw [e, computeDataRange_surface]
      have := drawLayers_surface b p.computeDataRange (some sf) c0
      simp only [Plot.drawLayers] at this
      rw [this]
      rfl

theorem saveToFile_plot (b : Backend K) (p : Plot K) (filename : String) :
    (p.saveToFile b filename).plot = (p.render b).2 := by
  unfold Plot.saveToFile
  simp only
  split
  · rfl
  · split
    · rfl
    · split
      · rfl
      · split <;> rfl

theorem computeDataRange_series (p : Plot K) : p.computeDataRange.series = p.series := by
  unfold Plot.computeDataRange
  split_ifs <;> rfl

theorem computeDataRange_config (p : Plot K) : p.computeDataRange.config = p.config := by
  unfold Plot.computeDataRange
  split_ifs <;> rfl

theorem padding_pos' (lo hi : K) (h : lo ≤ hi) : 0 < padding lo hi := by
  unfold padding
  rw [← padding_eq]
  exact padding_pos lo hi h

/-- The range stays non-degenerate, or becomes so when the plot is dirty and holds a point. -/
theorem computeDataRange_range_lt (p : Plot K)
    (h : (p.xMin < p.xMax ∧ p.yMin < p.yMax) ∨
      (p.rangeComputed = false ∧ allPoints p.series ≠ [])) :
    p.computeDataRange.xMin < p.computeDataRange.xMax ∧
      p.computeDataRange.yMin < p.computeDataRange.yMax := by
  by_cases hd : p.rangeComputed = true
  · rw [computeDataRange_of_clean p hd]
    rcases h with h | h
    · exact h
    · rw [hd] at h
      exact absurd h.1 (by simp)
  · have hd' : p.rangeComputed = false := by simpa using hd
    by_cases hs : p.series = []
    · rw [computeDataRange_of_no_series p hs]
      rcases h with h | h
      · exact h
      · exact absurd (by rw [hs]; rfl) h.2
    · by_cases hpts : allPoints p.series = []
      · rw [computeDataRange_of_no_points p hd' hs hpts]
        rcases h with h | h
        · have h1 := padding_pos' _ _ (le_of_lt h.1)
          have h2 := padding_pos' _ _ (le_of_lt h.2)
          constructor
          · show p.xMin - padding p.xMin p.xMax < p.xMax + padding p.xMin p.xMax
            linarith [h.1]
          · show p.yMin - padding p.yMin p.yMax < p.yMax + padding p.yMin p.yMax
            linarith [h.2]
        · exact absurd hpts h.2
      · have hbb := rangeLoop_isBoundingBox p.series p.xMin p.xMax p.yMin p.yMax hpts
        rw [computeDataRange_of_dirty p hd' hs _ rfl]
        have hle := hbb.le
        simp only [RangeAcc.toRange] at hle
        have h1 := padding_pos' _ _ hle.1
        have h2 := padding_pos' _ _ hle.2
        constructor
        · simp only
          linarith [hle.1]
        · simp only
          linarith [hle.2]

theorem computeDataRange_cacheValid (p : Plot K) (h : p.CacheValid) :
    p.computeDataRange.CacheValid := by
  by_cases hd : p.rangeComputed = true
  · rw [computeDataRange_of_clean p hd]
    exact h
  · have hd' : p.rangeComputed = false := by simpa using hd
    intro _ hpts
    rw [computeDataRange_series] at hpts
    have hs : p.series ≠ [] := fun e => hpts (by rw [e]; rfl)
    refine ⟨(p.series.foldl rangeLoopBody
      { xMin := p.xMin, xMax := p.xMax, yMin := p.yMin, yMax := p.yMax,
        first := true }).toRange, ?_, ?_⟩
    · rw [computeDataRange_series]
      exact rangeLoop_isBoundingBox p.series p.xMin p.xMax p.yMin p.yMax hpts
    · rw [computeDataRange_of_dirty p hd' hs _ rfl]
      rfl

theorem render_preserves (b : Backend K) (p : Plot K) (P : Plot K → Prop)
    (hsurf : ∀ (q : Plot K) (s : Option (Surface K)), P q → P { q with surface := s })
    (hcomp : ∀ q : Plot K, P q → P q.computeDataRange) (hp : P p) : P (p.render b).2 := by
  rcases render_cases b p with ⟨-, e⟩ | ⟨sf, -, -, e⟩ | ⟨sf, c0, -, -, e⟩
  · rw [e]
    exact hsurf p none hp
  · rw [e]
    exact hsurf _ _ (hcomp p hp)
  · rw [e]
    exact hsurf _ _ (hcomp p hp)

theorem setupCanvas_preserves (b : Backend K) (p : Plot K) (P : Plot K → Prop)
    (hsurf : ∀ (q : Plot K) (s : Option (Surface K)), P q → P { q with surface := s })
    (hp : P p) : P (p.setupCanvas b) := by
  rw [setupCanvas_eq]
  exact hsurf p _ hp

/-- Every reachable plot has a non-degenerate cached range and a valid cache. -/
theorem reachable_invariant (p : Plot K) (h : Reachable p) :
    (p.xMin < p.xMax ∧ p.yMin < p.yMax) ∧ p.CacheValid := by
  induction h with
  | new w h =>
    refine ⟨⟨?_, ?_⟩, ?_⟩
    · show (0 : K) < 1
      exact zero_lt_one
    · show (0 : K) < 1
      exact zero_lt_one
    · intro hc
      exact absurd hc (by simp [Plot.new])
  | setConfig c _ ih => exact ih
  | getConfig c _ ih => exact ih
  | addSeries s _ ih =>
    refine ⟨ih.1, ?_⟩
    intro hc
    exact absurd hc (by simp [Plot.addSeries])
  | clearSeries _ ih =>
    refine ⟨ih.1, ?_⟩
    intro hc
    exact absurd hc (by simp [Plot.clearSeries])
  | render b _ ih =>
    exact render_preserves b _ (fun q => (q.xMin < q.xMax ∧ q.yMin < q.yMax) ∧ q.CacheValid)
      (fun q s hq => hq)
      (fun q hq => ⟨computeDataRange_range_lt q (Or.inl hq.1), computeDataRange_cacheValid q hq.2⟩)
      ih
  | saveToFile b f _ ih =>
    rw [saveToFile_plot]
    exact render_preserves b _ (fun q => (q.xMin < q.xMax ∧ q.yMin < q.yMax) ∧ q.CacheValid)
      (fun q s hq => hq)
      (fun q hq => ⟨computeDataRange_range_lt q (Or.inl hq.1), computeDataRange_cacheValid q hq.2⟩)
      ih
  | getCanvas b _ ih =>
    exact setupCanvas_preserves b _
      (fun q => (q.xMin < q.xMax ∧ q.yMin < q.yMax) ∧ q.CacheValid) (fun q s hq => hq) ih

/-! ## Claims on reachable states -/

theorem computeDataRange_dirty_spec (p : Plot K) (hd : p.rangeComputed = false)
    (hpts : allPoints p.series ≠ []) :
    ∃ bb : Range K, IsBoundingBox (allPoints p.series) bb ∧
      p.computeDataRange.range = paddedBox bb ∧ p.computeDataRange.rangeComputed = true := by
  have hs : p.series ≠ [] := fun e => hpts (by rw [e]; rfl)
  refine ⟨(p.series.foldl rangeLoopBody
    { xMin := p.xMin, xMax := p.xMax, yMin := p.yMin, yMax := p.yMax,
      first := true }).toRange,
    rangeLoop_isBoundingBox p.series p.xMin p.xMax p.yMin p.yMax hpts, ?_, ?_⟩
  · rw [computeDataRange_of_dirty p hd hs _ rfl]
    rfl
  · rw [computeDataRange_of_dirty p hd hs _ rfl]

/-- Every point lies strictly inside the padded box of its tight bounding box. -/
theorem paddedBox_covers {pts : List (Point K)} {bb : Range K} (h : IsBoundingBox pts bb) :
    ∀ q ∈ pts, (paddedBox bb).xMin < q.x ∧ q.x < (paddedBox bb).xMax ∧
      (paddedBox bb).yMin < q.y ∧ q.y < (paddedBox bb).yMax := by
  intro q hq
  have hle := h.le
  have h1 := padding_pos' _ _ hle.1
  have h2 := padding_pos' _ _ hle.2
  obtain ⟨a, b, c, d⟩ := h.1 q hq
  simp only [paddedBox]
  refine ⟨?_, ?_, ?_, ?_⟩ <;> linarith

/-- C3: for every plot that the interface can produce, and for every dirty plot state, whose
series hold at least one point, the range cached after `computeDataRange` has
`xMin < xMax` and `yMin < yMax`, so neither divisor of `dataToCanvas` is zero. -/
theorem computeDataRange_range_nondegenerate (p : Plot K)
    (h : Reachable p ∨ p.rangeComputed = false) (hpts : allPoints p.series ≠ []) :
    p.computeDataRange.xMin < p.computeDataRange.xMax ∧
    p.computeDataRange.yMin < p.computeDataRange.yMax ∧
    p.computeDataRange.xMax - p.computeDataRange.xMin ≠ 0 ∧
    p.computeDataRange.yMax - p.computeDataRange.yMin ≠ 0 := by
  have key : p.computeDataRange.xMin < p.computeDataRange.xMax ∧
      p.computeDataRange.yMin < p.computeDataRange.yMax := by
    rcases h with h | h
    · exact computeDataRange_range_lt p (Or.inl (reachable_invariant p h).1)
    · exact computeDataRange_range_lt p (Or.inr ⟨h, hpts⟩)
  exact ⟨key.1, key.2, ne_of_gt (sub_pos.2 key.1), ne_of_gt (sub_pos.2 key.2)⟩

theorem computeDataRange_range_nondegenerate_witness :
    ((Reachable samplePlot ∨ samplePlot.rangeComputed = false) ∧
      allPoints samplePlot.series ≠ []) ∧
    (samplePlot.computeDataRange.xMin < samplePlot.computeDataRange.xMax ∧
      samplePlot.computeDataRange.yMin < samplePlot.computeDataRange.yMax ∧
      samplePlot.computeDataRange.xMax - samplePlot.computeDataRange.xMin ≠ 0 ∧
      samplePlot.computeDataRange.yMax - samplePlot.computeDataRange.yMin ≠ 0) :=
  ⟨⟨Or.inl (Reachable.addSeries _ (Reachable.addSeries _ (Reachable.new 800 600))),
      by simp [samplePlot, Plot.addSeries, Plot.new, allPoints]⟩,
    computeDataRange_range_nondegenerate samplePlot
      (Or.inl (Reachable.addSeries _ (Reachable.addSeries _ (Reachable.new 800 600))))
      (by simp [samplePlot, Plot.addSeries, Plot.new, allPoints])⟩

/-- C5: in every state that the interface can produce the cache is valid: if the range is
marked computed and some series has a point, the cached range is the padded tight bounding
box of the points held. `addSeries` and `clearSeries` leave the range marked dirty, and a
successful `render` after `addSeries` keeps the series, draws its layers with the range it
leaves cached, and, if there is a point, that range is marked computed, is the padded
bounding box of all points and holds every point of the new series strictly inside. -/
theorem cache_validity_invariant (p : Plot K) (h : Reachable p) :
    (p.rangeComputed = true → allPoints p.series ≠ [] →
      ∃ bb : Range K, IsBoundingBox (allPoints p.series) bb ∧
        p.xMin = bb.xMin - padding bb.xMin bb.xMax ∧
        p.xMax = bb.xMax + padding bb.xMin bb.xMax ∧
        p.yMin = bb.yMin - padding bb.yMin bb.yMax ∧
        p.yMax = bb.yMax + padding bb.yMin bb.yMax) ∧
    (∀ s : DataSeries K, (p.addSeries s).rangeComputed = false) ∧
    p.clearSeries.rangeComputed = false ∧
    (∀ (b : Backend K) (s : DataSeries K), ((p.addSeries s).render b).1 = true →
      ((p.addSeries s).render b).2.series = p.series ++ [s] ∧
      (∃ c0 : Canvas K, ((p.addSeries s).render b).2.surface.bind (fun sf => sf.canvas) =
        some (((p.addSeries s).render b).2.drawLayers b c0)) ∧
      (allPoints (p.series ++ [s]) ≠ [] →
        ((p.addSeries s).render b).2.rangeComputed = true ∧
        (∃ bb : Range K, IsBoundingBox (allPoints (p.series ++ [s])) bb ∧
          ((p.addSeries s).render b).2.range = paddedBox bb) ∧
        ∀ q ∈ s.points,
          ((p.addSeries s).render b).2.xMin < q.x ∧ q.x < ((p.addSeries s).render b).2.xMax ∧
          ((p.addSeries s).render b).2.yMin < q.y ∧
          q.y < ((p.addSeries s).render b).2.yMax)) := by
  refine ⟨?_, fun _ => rfl, rfl, ?_⟩
  · intro hc hpts
    obtain ⟨bb, hbb, e⟩ := (reachable_invariant p h).2 hc hpts
    simp only [Plot.range, paddedBox, Range.mk.injEq] at e
    exact ⟨bb, hbb, e⟩
  · intro b s hok
    rcases render_cases b (p.addSeries s) with ⟨-, e⟩ | ⟨sf, -, -, e⟩ | ⟨sf, c0, -, -, e⟩
    · rw [e] at hok
      exact absurd hok (by simp)
    · rw [e] at hok
      exact absurd hok (by simp)
    · rw [e]
      refine ⟨?_, ⟨c0, ?_⟩, ?_⟩
      · show (p.addSeries s).computeDataRange.series = p.series ++ [s]
        rw [computeDataRange_series]
        rfl
      · simp only [Option.bind]
        exact congrArg some (drawLayers_surface b (p.addSeries s).computeDataRange _ c0).symm
      · intro hpts
        obtain ⟨bb, hbb, e1, e2⟩ := computeDataRange_dirty_spec (p.addSeries s) rfl hpts
        refine ⟨e2, ⟨bb, hbb, e1⟩, ?_⟩
        intro q hq
        have hmem : q ∈ allPoints (p.series ++ [s]) := by
          rw [allPoints_append]
          simp [allPoints, hq]
        have := paddedBox_covers hbb q hmem
        rw [← e1] at this
        exact this

theorem cache_validity_invariant_witness :
    Reachable (samplePlot.render sampleBackend).2 ∧
    (samplePlot.render sampleBackend).2.rangeComputed = true ∧
    allPoints (samplePlot.render sampleBackend).2.series ≠ [] ∧
    ∃ bb : Range ℚ, IsBoundingBox (allPoints (samplePlot.render sampleBackend).2.series) bb ∧
      (samplePlot.render sampleBackend).2.xMin = bb.xMin - padding bb.xMin bb.xMax ∧
      (samplePlot.render sampleBackend).2.xMax = bb.xMax + padding bb.xMin bb.xMax ∧
      (samplePlot.render sampleBackend).2.yMin = bb.yMin - padding bb.yMin bb.yMax ∧
      (samplePlot.render sampleBackend).2.yMax = bb.yMax + padding bb.yMin bb.yMax := by
  have hr : Reachable (samplePlot.render sampleBackend).2 :=
    Reachable.render sampleBackend
      (Reachable.addSeries _ (Reachable.addSeries _ (Reachable.new 800 600)))
  have h1 : (samplePlot.render sampleBackend).2.rangeComputed = true := by
    simp [samplePlot, sampleBackend, Plot.render, Plot.setupCanvas, makeRaster,
      Plot.computeDataRange, Plot.addSeries, Plot.new]
  have h2 : allPoints (samplePlot.render sampleBackend).2.series ≠ [] := by
    simp [samplePlot, sampleBackend, Plot.render, Plot.setupCanvas, makeRaster,
      Plot.computeDataRange, Plot.addSeries, Plot.new, allPoints]
  exact ⟨hr, h1, h2, (cache_validity_invariant _ hr).1 h1 h2⟩

/-! ## Draw layers -/

theorem foldl_appends {α β : Type} (F : List α → β → List α)
    (hF : ∀ c i, F c i = c ++ F [] i) (l : List β) :
    ∀ init : List α, l.foldl F init = init ++ l.foldl F [] := by
  induction l with
  | nil => intro init; simp
  | cons i rest ih =>
    intro init
    simp only [List.foldl_cons]
    rw [ih (F init i), ih (F [] i), hF init i, List.append_assoc]

theorem drawBackground_append (p : Plot K) (c : Canvas K) :
    p.drawBackground c = c ++ p.drawBackground [] := by
  simp [Plot.drawBackground]

theorem drawGrid_append (p : Plot K) (c : Canvas K) :
    p.drawGrid c = c ++ p.drawGrid [] := by
  unfold Plot.drawGrid
  split_ifs
  · simp
  · simp only
    rw [foldl_appends _ (fun c i => by simp) _ (List.foldl _ c _),
      foldl_appends _ (fun c i => by simp) _ c,
      foldl_appends _ (fun c i => by simp) _ (List.foldl _ [] _), List.append_assoc]

theorem drawAxes_append (b : Backend K) (p : Plot K) (c : Canvas K) :
    p.drawAxes b c = c ++ p.drawAxes b [] := by
  unfold Plot.drawAxes
  simp only
  rw [foldl_appends _ (fun c i => by simp) _ (List.foldl _ _ _),
    foldl_appends _ (fun c i => by simp) _ (c ++ _ ++ _),
    foldl_appends _ (fun c i => by simp) _ (List.foldl _ ([] ++ _ ++ _) _),
    foldl_appends _ (fun c i => by simp) _ ([] ++ _ ++ _)]
  simp only [List.append_assoc, List.nil_append]

theorem drawSeries_append (p : Plot K) (c : Canvas K) (s : DataSeries K) (color : Nat) :
    p.drawSeries c s color = c ++ p.drawSeries [] s color := by
  unfold Plot.drawSeries
  cases s.points with
  | nil => simp
  | cons p0 rest =>
    simp only
    split_ifs
    · rw [foldl_appends _ (fun c i => by simp) _ (c ++ _),
        foldl_appends _ (fun c i => by simp) _ ([] ++ _)]
      simp only [List.append_assoc, List.nil_append]
    · simp

theorem drawLabels_append (b : Backend K) (p : Plot K) (c : Canvas K) :
    p.drawLabels b c = c ++ p.drawLabels b [] := by
  unfold Plot.drawLabels
  simp only
  split_ifs <;> simp

theorem drawSeriesLoop_eq (p : Plot K) (ss : List (DataSeries K)) :
    ∀ (i : Nat) (c : Canvas K),
      p.drawSeriesLoop i ss c = c ++ (ss.enumFrom i).flatMap (fun is =>
        p.drawSeries [] is.2 (colors.get ⟨is.1 % 5, Nat.mod_lt is.1 (by decide)⟩)) := by
  induction ss with
  | nil => intro i c; simp [Plot.drawSeriesLoop]
  | cons s rest ih =>
    intro i c
    simp only [Plot.drawSeriesLoop, List.enumFrom_cons, List.flatMap_cons]
    rw [ih, drawSeries_append, List.append_assoc]

/-- The layers append their calls, in order, to the canvas. -/
theorem drawLayers_eq (b : Backend K) (p : Plot K) (c : Canvas K) :
    p.drawLayers b c = c ++ p.layerCalls b := by
  unfold Plot.drawLayers Plot.layerCalls Plot.seriesCalls
  rw [drawLabels_append, drawSeriesLoop_eq, drawAxes_append, drawGrid_append,
    drawBackground_append]
  simp only [List.enum, List.append_assoc]

/-! ## Claims on rendering -/

theorem foldl_append_singleton {α β : Type} (g : β → α) (l : List β) :
    ∀ init : List α, l.foldl (fun c i => c ++ [g i]) init = init ++ l.map g := by
  induction l with
  | nil => intro init; simp
  | cons i rest ih =>
    intro init
    simp only [List.foldl_cons, List.map_cons]
    rw [ih, List.append_assoc]
    rfl

theorem setupCanvas_surface_size (b : Backend K) (p : Plot K) (sf : Surface K)
    (h : (p.setupCanvas b).surface = some sf) :
    sf.width = p.config.width ∧ sf.height = p.config.height := by
  have hm : ∀ w h : Int, makeRaster b w h = some sf → sf.width = w ∧ sf.height = h := by
    intro w h hr
    unfold makeRaster at hr
    split_ifs at hr
    all_goals
      simp only [Option.some.injEq] at hr
      subst hr
      exact ⟨rfl, rfl⟩
  unfold Plot.setupCanvas at h
  cases hs : p.surface with
  | none =>
    rw [hs] at h
    exact hm _ _ h
  | some s =>
    rw [hs] at h
    simp only at h
    split_ifs at h with hne
    · exact hm _ _ h
    · rw [hs] at h
      simp only [Option.some.injEq] at h
      subst h
      simp only [not_or, not_not] at hne
      exact hne

theorem setupCanvas_of_size (b : Backend K) (p : Plot K) (sf : Surface K)
    (hs : p.surface = some sf) (hw : sf.width = p.config.width)
    (hh : sf.height = p.config.height) : p.setupCanvas b = p := by
  unfold Plot.setupCanvas
  rw [hs]
  simp [hw, hh]

theorem computeDataRange_idem (p : Plot K) :
    p.computeDataRange.computeDataRange = p.computeDataRange := by
  by_cases hd : p.rangeComputed = true
  · rw [computeDataRange_of_clean p hd, computeDataRange_of_clean p hd]
  · have hd' : p.rangeComputed = false := by simpa using hd
    by_cases hs : p.series = []
    · rw [computeDataRange_of_no_series p hs, computeDataRange_of_no_series p hs]
    · apply computeDataRange_of_clean
      rw [computeDataRange_of_dirty p hd' hs _ rfl]

/-- What a successful `render` does: it appends the layer calls of the state after
`computeDataRange` to the canvas of the surface that `setupCanvas` leaves. -/
theorem render_of_canvas (b : Backend K) (p : Plot K) (sf : Surface K) (c0 : Canvas K)
    (hs : (p.setupCanvas b).surface = some sf) (hc : sf.canvas = some c0) :
    p.render b = (true, { p.computeDataRange with
      surface := some { sf with canvas := some (c0 ++ p.computeDataRange.layerCalls b) } }) := by
  rcases render_cases b p with ⟨h, -⟩ | ⟨sf', h, hc', -⟩ | ⟨sf', c0', h, hc', e⟩
  · rw [hs] at h
    exact absurd h (by simp)
  · rw [hs] at h
    simp only [Option.some.injEq] at h
    subst h
    rw [hc] at hc'
    exact absurd hc' (by simp)
  · rw [hs] at h
    simp only [Option.some.injEq] at h
    subst h
    rw [hc] at hc'
    simp only [Option.some.injEq] at hc'
    subst hc'
    rw [e, drawLayers_eq]

theorem render_ok_iff (b : Backend K) (p : Plot K) :
    (p.render b).1 = true ↔ ∃ c0, (p.setupCanvas b).canvas? = some c0 := by
  rcases render_cases b p with ⟨h, e⟩ | ⟨sf', h, hc', e⟩ | ⟨sf', c0', h, hc', e⟩
  · rw [e]
    simp [Plot.canvas?, h]
  · rw [e]
    simp [Plot.canvas?, h, hc']
  · rw [e]
    simp [Plot.canvas?, h, hc']

/-- C6: when `render` succeeds, a second `render` right after it succeeds too, appends to
the canvas exactly the calls the first one appended, and leaves the cached range, the
`rangeComputed` flag, the series and the configuration as the first call left them. -/
theorem render_idempotent (b : Backend K) (p : Plot K) (hok : (p.render b).1 = true) :
    ∃ (c0 : Canvas K) (calls : List (DrawCall K)),
      (p.setupCanvas b).canvas? = some c0 ∧
      (p.render b).2.canvas? = some (c0 ++ calls) ∧
      ((p.render b).2.render b).1 = true ∧
      ((p.render b).2.render b).2.canvas? = some (c0 ++ calls ++ calls) ∧
      ((p.render b).2.render b).2.range = (p.render b).2.range ∧
      ((p.render b).2.render b).2.rangeComputed = (p.render b).2.rangeComputed ∧
      ((p.render b).2.render b).2.series = (p.render b).2.series ∧
      ((p.render b).2.render b).2.config = (p.render b).2.config := by
  obtain ⟨c0, h0⟩ := (render_ok_iff b p).1 hok
  have h0' := h0
  unfold Plot.canvas? at h0
  cases hs : (p.setupCanvas b).surface with
  | none =>
    rw [hs] at h0
    exact absurd h0 (by simp)
  | some sf =>
    rw [hs] at h0
    have hc : sf.canvas = some c0 := h0
    have e1 := render_of_canvas b p sf c0 hs hc
    obtain ⟨hw, hh⟩ := setupCanvas_surface_size b p sf hs
    have hset : ((p.render b).2).setupCanvas b = (p.render b).2 := by
      rw [e1]
      refine setupCanvas_of_size b _ _ rfl ?_ ?_
      · show sf.width = p.computeDataRange.config.width
        rw [computeDataRange_config]
        exact hw
      · show sf.height = p.computeDataRange.config.height
        rw [computeDataRange_config]
        exact hh
    have hcomp : (p.render b).2.computeDataRange = (p.render b).2 := by
      rw [e1]
      show ({ p.computeDataRange with surface := _ } : Plot K).computeDataRange = _
      rw [computeDataRange_surface, computeDataRange_idem]
    have hcalls : (p.render b).2.layerCalls b = p.computeDataRange.layerCalls b := by
      rw [e1]
      have := drawLayers_surface b p.computeDataRange
        (some { sf with canvas := some (c0 ++ p.computeDataRange.layerCalls b) }) []
      rw [drawLayers_eq, drawLayers_eq] at this
      simpa using this
    have e2 := render_of_canvas b (p.render b).2
      { sf with canvas := some (c0 ++ p.computeDataRange.layerCalls b) }
      (c0 ++ p.computeDataRange.layerCalls b)
      (by rw [hset, e1]) rfl
    rw [hcomp, hcalls] at e2
    refine ⟨c0, p.computeDataRange.layerCalls b, h0', ?_, ?_, ?_, ?_, ?_, ?_, ?_⟩
    · rw [e1]
      rfl
    · rw [e2]
    · rw [e2]
      rfl
    · rw [e2]
      rfl
    · rw [e2]
    · rw [e2]
    · rw [e2]

theorem render_idempotent_witness :
    (samplePlot.render sampleBackend).1 = true ∧
    ∃ (c0 : Canvas ℚ) (calls : List (DrawCall ℚ)),
      (samplePlot.setupCanvas sampleBackend).canvas? = some c0 ∧
      (samplePlot.render sampleBackend).2.canvas? = some (c0 ++ calls) ∧
      ((samplePlot.render sampleBackend).2.render sampleBackend).1 = true ∧
      ((samplePlot.render sampleBackend).2.render sampleBackend).2.canvas? =
        some (c0 ++ calls ++ calls) ∧
      ((samplePlot.render sampleBackend).2.render sampleBackend).2.range =
        (samplePlot.render sampleBackend).2.range ∧
      ((samplePlot.render sampleBackend).2.render sampleBackend).2.rangeComputed =
        (samplePlot.render sampleBackend).2.rangeComputed ∧
      ((samplePlot.render sampleBackend).2.render sampleBackend).2.series =
        (samplePlot.render sampleBackend).2.series ∧
      ((samplePlot.render sampleBackend).2.render sampleBackend).2.config =
        (samplePlot.render sampleBackend).2.config :=
  ⟨by simp [samplePlot, sampleBackend, Plot.render, Plot.setupCanvas, makeRaster,
      Plot.addSeries, Plot.new],
    render_idempotent sampleBackend samplePlot
      (by simp [samplePlot, sampleBackend, Plot.render, Plot.setupCanvas, makeRaster,
        Plot.addSeries, Plot.new])⟩

theorem one_point_zero : (1.0 : K) = 1 := by norm_num

theorem two_point_zero : (2.0 : K) = 2 := by norm_num

theorem not_isEmpty_iff (s : String) : (!s.isEmpty) = true ↔ ¬ s = "" := by
  rw [← String.isEmpty_iff]
  cases s.isEmpty <;> simp

theorem drawBackground_nil (q : Plot K) : q.drawBackground [] = q.backgroundLayer := rfl

theorem drawGrid_nil (q : Plot K) : q.drawGrid [] = q.gridLayer := by
  unfold Plot.drawGrid Plot.gridLayer
  cases hg : q.config.showGrid with
  | false => simp
  | true =>
    simp [List.range_succ, one_point_zero]

theorem drawAxes_nil (b : Backend K) (q : Plot K) : q.drawAxes b [] = q.axesLayer b := by
  unfold Plot.drawAxes Plot.axesLayer
  simp [List.range_succ, two_point_zero]

theorem drawSeries_nil (q : Plot K) (s : DataSeries K) (color : Nat) :
    q.drawSeries [] s color = q.seriesLayer s color := by
  unfold Plot.drawSeries Plot.seriesLayer
  cases s.points with
  | nil => rfl
  | cons p0 rest =>
    simp only [foldl_append_singleton, List.nil_append, List.singleton_append]
    cases hsp : q.config.showPoints with
    | false => simp
    | true => simp

theorem drawLabels_nil (b : Backend K) (q : Plot K) : q.drawLabels b [] = q.labelsLayer b := by
  unfold Plot.drawLabels Plot.labelsLayer
  simp only [not_isEmpty_iff, ite_not]
  by_cases h1 : q.config.title = "" <;> by_cases h2 : q.config.xLabel = "" <;>
    by_cases h3 : q.config.yLabel = "" <;>
    simp [h1, h2, h3]

/-- C7: when the surface and its canvas are available, `render` succeeds and appends to the
canvas, in this order: the background fill; the grid lines (none when `showGrid` is false,
11 vertical then 11 horizontal otherwise); the two axis lines with 6 ticks and 6 tick labels
on each axis; for each series in insertion order its path and optional markers, painted with
entry `i % 5` of the palette blue, red, green, orange, purple (nothing for a series without
points, which still takes its index); and the title and axis labels. Each layer is written
out call by call in `backgroundLayer`, `gridLayer`, `axesLayer`, `seriesLayer` and
`labelsLayer`, and is exactly what the corresponding draw function appends. -/
theorem render_layer_order (b : Backend K) (p : Plot K) (c0 : Canvas K)
    (h : (p.setupCanvas b).canvas? = some c0) :
    (p.render b).1 = true ∧
    (p.render b).2.canvas? = some (c0 ++
      (p.computeDataRange.backgroundLayer ++ p.computeDataRange.gridLayer ++
        p.computeDataRange.axesLayer b ++
        p.series.enum.flatMap (fun is => p.computeDataRange.seriesLayer is.2
          (colors.get ⟨is.1 % 5, Nat.mod_lt is.1 (by decide)⟩)) ++
        p.computeDataRange.labelsLayer b)) ∧
    colors = [0xFF0000FF, 0xFFFF0000, 0xFF00AA00, 0xFFFF8800, 0xFF8800FF] ∧
    (p.computeDataRange.drawBackground [] = p.computeDataRange.backgroundLayer ∧
      p.computeDataRange.drawGrid [] = p.computeDataRange.gridLayer ∧
      p.computeDataRange.drawAxes b [] = p.computeDataRange.axesLayer b ∧
      (∀ (s : DataSeries K) (color : Nat),
        p.computeDataRange.drawSeries [] s color = p.computeDataRange.seriesLayer s color) ∧
      p.computeDataRange.drawLabels b [] = p.computeDataRange.labelsLayer b) ∧
    (p.computeDataRange.backgroundLayer.length = 1 ∧
      (p.config.showGrid = false → p.computeDataRange.gridLayer = []) ∧
      (p.config.showGrid = true → p.computeDataRange.gridLayer.length = 22) ∧
      (p.computeDataRange.axesLayer b).length = 26 ∧
      (∀ (s : DataSeries K) (color : Nat), s.points = [] →
        p.computeDataRange.seriesLayer s color = []) ∧
      (∀ (s : DataSeries K) (color : Nat), s.points ≠ [] →
        (p.computeDataRange.seriesLayer s color).length =
          if p.config.showPoints = true then 1 + s.points.length else 1) ∧
      (∀ (s : DataSeries K) (color : Nat), ∀ call ∈ p.computeDataRange.seriesLayer s color,
        call.paint?.map (fun paint => paint.color) = some color) ∧
      (p.computeDataRange.labelsLayer b).length =
        (if p.config.title = "" then 0 else 1) + (if p.config.xLabel = "" then 0 else 1) +
          (if p.config.yLabel = "" then 0 else 5)) ∧
    (p.render b).2.canvas? = some (c0 ++
      (p.computeDataRange.drawBackground [] ++ p.computeDataRange.drawGrid [] ++
        p.computeDataRange.drawAxes b [] ++
        p.series.enum.flatMap (fun is => p.computeDataRange.drawSeries [] is.2
          (colors.get ⟨is.1 % 5, Nat.mod_lt is.1 (by decide)⟩)) ++
        p.computeDataRange.drawLabels b [])) := by
  have h0 := h
  unfold Plot.canvas? at h0
  cases hs : (p.setupCanvas b).surface with
  | none =>
    rw [hs] at h0
    exact absurd h0 (by simp)
  | some sf =>
    rw [hs] at h0
    have hc : sf.canvas = some c0 := h0
    have e1 := render_of_canvas b p sf c0 hs hc
    have hcfg := computeDataRange_config p
    have hdrawn : (p.render b).2.canvas? = some (c0 ++
        (p.computeDataRange.drawBackground [] ++ p.computeDataRange.drawGrid [] ++
          p.computeDataRange.drawAxes b [] ++
          p.series.enum.flatMap (fun is => p.computeDataRange.drawSeries [] is.2
            (colors.get ⟨is.1 % 5, Nat.mod_lt is.1 (by decide)⟩)) ++
          p.computeDataRange.drawLabels b [])) := by
      rw [e1]
      show some (c0 ++ p.computeDataRange.layerCalls b) = _
      unfold Plot.layerCalls Plot.seriesCalls
      rw [computeDataRange_series]
    refine ⟨by rw [e1], ?_, rfl, ?_, ?_, hdrawn⟩
    · rw [hdrawn]
      simp only [drawBackground_nil, drawGrid_nil, drawAxes_nil, drawSeries_nil,
        drawLabels_nil]
    · exact ⟨drawBackground_nil _, drawGrid_nil _, drawAxes_nil b _,
        fun s color => drawSeries_nil _ s color, drawLabels_nil b _⟩
    · refine ⟨rfl, ?_, ?_, ?_, ?_, ?_, ?_, ?_⟩
      · intro hg
        simp [Plot.gridLayer, hcfg, hg]
      · intro hg
        simp [Plot.gridLayer, hcfg, hg]
      · simp [Plot.axesLayer, List.range_succ]
      · intro s color hpts
        simp [Plot.seriesLayer, hpts]
      · intro s color hpts
        unfold Plot.seriesLayer
        cases hp : s.points with
        | nil => exact absurd hp hpts
        | cons p0 rest =>
          rw [hcfg]
          by_cases hsp : p.config.showPoints = true
          · simp [hsp]
            omega
          · simp [hsp]
      · intro s color call hcall
        unfold Plot.seriesLayer at hcall
        cases hp : s.points with
        | nil =>
          rw [hp] at hcall
          simp at hcall
        | cons p0 rest =>
          rw [hp] at hcall
          simp only [List.mem_append, List.mem_singleton] at hcall
          rcases hcall with hm | hm
          · subst hm
            rfl
          · split_ifs at hm
            · simp only [List.mem_map] at hm
              obtain ⟨pt, -, rfl⟩ := hm
              rfl
            · simp at hm
      · unfold Plot.labelsLayer
        rw [hcfg]
        by_cases h1 : p.config.title = "" <;> by_cases h2 : p.config.xLabel = "" <;>
          by_cases h3 : p.config.yLabel = "" <;>
          simp [h1, h2, h3]

theorem render_layer_order_witness :
    (samplePlot.setupCanvas sampleBackend).canvas? = some [] ∧
    (samplePlot.render sampleBackend).1 = true ∧
    (samplePlot.render sampleBackend).2.canvas? = some ([] ++
      (samplePlot.computeDataRange.backgroundLayer ++ samplePlot.computeDataRange.gridLayer ++
        samplePlot.computeDataRange.axesLayer sampleBackend ++
        samplePlot.series.enum.flatMap (fun is => samplePlot.computeDataRange.seriesLayer is.2
          (colors.get ⟨is.1 % 5, Nat.mod_lt is.1 (by decide)⟩)) ++
        samplePlot.computeDataRange.labelsLayer sampleBackend)) :=
  ⟨by simp [samplePlot, sampleBackend, Plot.setupCanvas, makeRaster, Plot.canvas?,
      Plot.addSeries, Plot.new],
    (render_layer_order sampleBackend samplePlot []
      (by simp [samplePlot, sampleBackend, Plot.setupCanvas, makeRaster, Plot.canvas?,
        Plot.addSeries, Plot.new])).1,
    (render_layer_order sampleBackend samplePlot []
      (by simp [samplePlot, sampleBackend, Plot.setupCanvas, makeRaster, Plot.canvas?,
        Plot.addSeries, Plot.new])).2.1⟩

/-! ## Claims on the utilities and the defaults -/

theorem linspace_eq_map (start end_ : K) (n : Int) (hn : 2 ≤ n) :
    Utils.linspace start end_ n =
      (List.range n.toNat).map (fun i : Nat =>
        ({ x := start + ((i : Int) : K) * ((end_ - start) / ((n - 1 : Int) : K)), y := 0 } :
          Point K)) := by
  unfold Utils.linspace
  rw [if_neg (by omega), if_neg (by omega)]
  simp only
  rw [foldl_append_singleton]
  rfl

/-- C8: for `n ≥ 2`, `linspace start end n` has exactly `n` points, all with `y = 0`, the
`i`-th with `x = start + i * (end - start) / (n - 1)`; the first `x` is `start`, the last is
`end`, and the `x` values increase strictly when `start < end`. For `n = 0` the result is
empty and for `n = 1` it is the single point `(start, 0)`. -/
theorem linspace_spec (start end_ : K) (n : Int) (hn : 2 ≤ n) :
    ((Utils.linspace start end_ n).length : Int) = n ∧
    (∀ q ∈ Utils.linspace start end_ n, q.y = 0) ∧
    (∀ (i : Nat) (hi : i < (Utils.linspace start end_ n).length),
      (Utils.linspace start end_ n)[i].x =
        start + (i : K) * (end_ - start) / ((n : K) - 1)) ∧
    (Utils.linspace start end_ n).head?.map (fun q => q.x) = some start ∧
    (Utils.linspace start end_ n).getLast?.map (fun q => q.x) = some end_ ∧
    (start < end_ → (Utils.linspace start end_ n).Pairwise (fun q r => q.x < r.x)) ∧
    Utils.linspace start end_ 0 = [] ∧
    Utils.linspace start end_ 1 = [{ x := start, y := 0 }] := by
  have hL := linspace_eq_map start end_ n hn
  have hpos : (0 : K) < ((n - 1 : Int) : K) := by
    have : (0 : Int) < n - 1 := by omega
    exact_mod_cast this
  obtain ⟨m, hm⟩ : ∃ m : Nat, n.toNat = m + 2 := ⟨n.toNat - 2, by omega⟩
  have hnm : n = (m : Int) + 2 := by omega
  refine ⟨?_, ?_, ?_, ?_, ?_, ?_, ?_, ?_⟩
  · rw [hL]
    simp only [List.length_map, List.length_range]
    omega
  · intro q hq
    rw [hL] at hq
    simp only [List.mem_map] at hq
    obtain ⟨i, -, rfl⟩ := hq
    rfl
  · intro i hi
    simp only [hL, List.getElem_map, List.getElem_range]
    push_cast
    rw [mul_div_assoc]
  · rw [hL, hm]
    simp [List.range_succ_eq_map]
  · rw [hL, hm, List.range_succ, List.map_append]
    simp only [List.map_cons, List.map_nil, List.getLast?_concat, Option.map_some',
      Option.some.injEq]
    have : (((m + 1 : Nat) : Int) : K) = ((n - 1 : Int) : K) := by
      congr 1
      omega
    rw [this, mul_div_cancel₀ _ (ne_of_gt hpos)]
    ring
  · intro hlt
    rw [hL, List.pairwise_map]
    refine (List.pairwise_lt_range n.toNat).imp ?_
    intro i j hij
    have hstep : 0 < (end_ - start) / ((n - 1 : Int) : K) := div_pos (sub_pos.2 hlt) hpos
    have hc : (((i : Int) : K)) < (((j : Int) : K)) := by exact_mod_cast hij
    have := mul_lt_mul_of_pos_right hc hstep
    simp only
    linarith
  · simp [Utils.linspace]
  · simp [Utils.linspace]

theorem linspace_spec_witness :
    (2 : Int) ≤ 5 ∧
    ((Utils.linspace (0 : ℚ) 1 5).length : Int) = 5 ∧
    (Utils.linspace (0 : ℚ) 1 5).getLast?.map (fun q => q.x) = some 1 :=
  ⟨by decide, (linspace_spec (0 : ℚ) 1 5 (by decide)).1,
    (linspace_spec (0 : ℚ) 1 5 (by decide)).2.2.2.2.1⟩

theorem foldl_addPoint (x y : List K) (l : List Nat) :
    ∀ series : DataSeries K,
      l.foldl (fun series i => series.addPoint (x.getD i 0) (y.getD i 0)) series =
        { name := series.name,
          points := series.points ++
            l.map (fun i => ({ x := x.getD i 0, y := y.getD i 0 } : Point K)) } := by
  induction l with
  | nil => intro series; simp
  | cons i rest ih =>
    intro series
    simp only [List.foldl_cons, List.map_cons]
    rw [ih]
    simp [DataSeries.addPoint]

theorem map_range_eq_zipWith (x y : List K) (h : x.length = y.length) :
    (List.range x.length).map (fun i => ({ x := x.getD i 0, y := y.getD i 0 } : Point K)) =
      List.zipWith Point.mk x y := by
  apply List.ext_getElem
  · simp [h]
  · intro i h1 h2
    simp only [List.length_map, List.length_range] at h1
    have h3 : i < y.length := h ▸ h1
    simp only [List.getElem_map, List.getElem_range, List.getElem_zipWith,
      List.getD_eq_getElem _ _ h1, List.getD_eq_getElem _ _ h3]

/-- C9: `quickPlot` returns false without any file operation, whatever the backend, when the
arrays differ in length or `x` is empty. With equal non-zero lengths its result and its file
operations are those of `saveToFile` on a default 800 × 600 plot carrying the title and
holding exactly one series, "Data", whose `i`-th point is `(x[i], y[i])`. -/
theorem quickPlot_spec (b : Backend K) (x y : List K) (filename title : String) :
    ((x.length ≠ y.length ∨ x = []) → Utils.quickPlot b x y filename title = (false, [])) ∧
    (x.length = y.length → x ≠ [] →
      Utils.quickPlot b x y filename title =
        (((quickPlotPlot x y title).saveToFile b filename).ok,
          ((quickPlotPlot x y title).saveToFile b filename).fileOps) ∧
      (∃ series : DataSeries K, (quickPlotPlot x y title).series = [series] ∧
        series.points.length = x.length ∧
        ∀ (i : Nat) (hp : i < series.points.length) (hx : i < x.length) (hy : i < y.length),
          series.points[i] = { x := x[i], y := y[i] })) := by
  constructor
  · intro h
    have : x.length ≠ y.length ∨ x.isEmpty = true := by
      rcases h with h | h
      · exact Or.inl h
      · exact Or.inr (by rw [h]; rfl)
    unfold Utils.quickPlot
    rw [if_pos this]
  · intro hlen hne
    have hcond : ¬(x.length ≠ y.length ∨ x.isEmpty = true) := by
      intro h
      rcases h with h | h
      · exact h hlen
      · exact hne (List.isEmpty_iff.1 h)
    constructor
    · have hser : (List.range x.length).foldl
            (fun series i => series.addPoint (x.getD i 0) (y.getD i 0))
            ({ name := "Data", points := [] } : DataSeries K) =
          { name := "Data", points := List.zipWith Point.mk x y } := by
        rw [foldl_addPoint, List.nil_append, map_range_eq_zipWith x y hlen]
      unfold Utils.quickPlot
      rw [if_neg hcond]
      simp only [hser]
      by_cases ht : title.isEmpty = true
      · have hte : title = "" := (String.isEmpty_iff title).1 ht
        subst hte
        rfl
      · simp only [ht, Bool.not_false, if_true]
        rfl
    · refine ⟨_, rfl, ?_, ?_⟩
      · simp [hlen]
      · intro i hp hx hy
        simp only [List.getElem_zipWith]

theorem quickPlot_spec_witness :
    Utils.quickPlot sampleBackend [0, 1, 2] [0, 1] "out.png" "t" = (false, []) ∧
    Utils.quickPlot sampleBackend [0, 1, 2] [0, 1, 4] "out.png" "t" =
      (((quickPlotPlot [0, 1, 2] [0, 1, 4] "t").saveToFile sampleBackend "out.png").ok,
        ((quickPlotPlot [0, 1, 2] [0, 1, 4] "t").saveToFile sampleBackend "out.png").fileOps) :=
  ⟨(quickPlot_spec sampleBackend [0, 1, 2] [0, 1] "out.png" "t").1 (Or.inl (by decide)),
    ((quickPlot_spec sampleBackend [0, 1, 2] [0, 1, 4] "out.png" "t").2 (by decide)
      (by simp)).1⟩

/-- C10, as the code has it: a default-constructed `PlotConfig`, which is also the
configuration of a default-constructed `Plot`, is 800 × 600 with margins 60, 40, 40, 60,
white background, black axes, light-gray grid, blue line, line width 2, grid on, points ON,
point radius 4 and empty title and axis labels. -/
theorem plotConfig_defaults :
    (Plot.new 800 600 : Plot K).config = ({} : PlotConfig K) ∧
    ({} : PlotConfig K).width = 800 ∧ ({} : PlotConfig K).height = 600 ∧
    ({} : PlotConfig K).marginLeft = 60 ∧ ({} : PlotConfig K).marginRight = 40 ∧
    ({} : PlotConfig K).marginTop = 40 ∧ ({} : PlotConfig K).marginBottom = 60 ∧
    ({} : PlotConfig K).backgroundColor = 0xFFFFFFFF ∧
    ({} : PlotConfig K).axisColor = 0xFF000000 ∧
    ({} : PlotConfig K).gridColor = 0xFFCCCCCC ∧
    ({} : PlotConfig K).lineColor = 0xFF0000FF ∧
    ({} : PlotConfig K).lineWidth = 2 ∧
    ({} : PlotConfig K).showGrid = true ∧
    ({} : PlotConfig K).showPoints = true ∧
    ({} : PlotConfig K).pointRadius = 4 ∧
    ({} : PlotConfig K).title = "" ∧ ({} : PlotConfig K).xLabel = "" ∧
    ({} : PlotConfig K).yLabel = "" := by
  refine ⟨rfl, rfl, rfl, rfl, rfl, rfl, rfl, rfl, rfl, rfl, rfl, ?_, rfl, rfl, ?_, rfl, rfl, rfl⟩
  · show (2.0 : K) = 2
    norm_num
  · show (4.0 : K) = 4
    norm_num

/-- C10, as stated, fails: the default configuration does not have `showPoints` false. -/
theorem plotConfig_defaults_showPoints_not_false :
    ¬ (({} : PlotConfig ℚ).width = 800 ∧ ({} : PlotConfig ℚ).height = 600 ∧
      ({} : PlotConfig ℚ).marginLeft = 60 ∧ ({} : PlotConfig ℚ).marginRight = 40 ∧
      ({} : PlotConfig ℚ).marginTop = 40 ∧ ({} : PlotConfig ℚ).marginBottom = 60 ∧
      ({} : PlotConfig ℚ).backgroundColor = 0xFFFFFFFF ∧
      ({} : PlotConfig ℚ).axisColor = 0xFF000000 ∧
      ({} : PlotConfig ℚ).gridColor = 0xFFCCCCCC ∧
      ({} : PlotConfig ℚ).lineColor = 0xFF0000FF ∧
      ({} : PlotConfig ℚ).lineWidth = 2 ∧
      ({} : PlotConfig ℚ).showGrid = true ∧
      ({} : PlotConfig ℚ).showPoints = false ∧
      ({} : PlotConfig ℚ).pointRadius = 4 ∧
      ({} : PlotConfig ℚ).title = "" ∧ ({} : PlotConfig ℚ).xLabel = "" ∧
      ({} : PlotConfig ℚ).yLabel = "") := by
  intro h
  have hsp : ({} : PlotConfig ℚ).showPoints = false := h.2.2.2.2.2.2.2.2.2.2.2.2.1
  exact absurd hsp (by decide)

/-! ## Claim on the plotting rectangle -/

theorem mem_allPoints {ss : List (DataSeries K)} {s : DataSeries K} {q : Point K}
    (hs : s ∈ ss) (hq : q ∈ s.points) : q ∈ allPoints ss := by
  induction ss with
  | nil => simp at hs
  | cons a rest ih =>
    simp only [allPoints, List.mem_append]
    rcases List.mem_cons.1 hs with e | hmem
    · left
      rw [← e]
      exact hq
    · right
      exact ih hmem

/-- After `computeDataRange`, on a plot that is dirty or that the interface can produce, the
cached range holds every point strictly inside. -/
theorem computeDataRange_covers (p : Plot K) (h : Reachable p ∨ p.rangeComputed = false)
    (hpts : allPoints p.series ≠ []) :
    ∀ q ∈ allPoints p.series,
      p.computeDataRange.xMin < q.x ∧ q.x < p.computeDataRange.xMax ∧
      p.computeDataRange.yMin < q.y ∧ q.y < p.computeDataRange.yMax := by
  have key : ∃ bb : Range K, IsBoundingBox (allPoints p.series) bb ∧
      p.computeDataRange.range = paddedBox bb := by
    by_cases hd : p.rangeComputed = true
    · rcases h with h | h
      · rw [computeDataRange_of_clean p hd]
        exact (reachable_invariant p h).2 hd hpts
      · rw [hd] at h
        exact absurd h (by simp)
    · have hd' : p.rangeComputed = false := by simpa using hd
      obtain ⟨bb, hbb, e, -⟩ := computeDataRange_dirty_spec p hd' hpts
      exact ⟨bb, hbb, e⟩
  obtain ⟨bb, hbb, e⟩ := key
  intro q hq
  have := paddedBox_covers hbb q hq
  rw [← e] at this
  exact this

/-- A data point strictly inside the cached range is mapped strictly inside the plotting
rectangle, when that rectangle has positive width and height. -/
theorem dataToCanvas_strictlyInside (p : Plot K)
    (hW : 0 < p.config.width - p.config.marginLeft - p.config.marginRight)
    (hH : 0 < p.config.height - p.config.marginTop - p.config.marginBottom)
    (x y : K) (hx0 : p.xMin < x) (hx1 : x < p.xMax) (hy0 : p.yMin < y) (hy1 : y < p.yMax) :
    p.config.StrictlyInside (p.dataToCanvas x y) := by
  have hW' : (0 : K) <
      (p.config.width : K) - (p.config.marginLeft : K) - (p.config.marginRight : K) := by
    exact_mod_cast hW
  have hH' : (0 : K) <
      (p.config.height : K) - (p.config.marginTop : K) - (p.config.marginBottom : K) := by
    exact_mod_cast hH
  have hdx : 0 < p.xMax - p.xMin := by linarith
  have hdy : 0 < p.yMax - p.yMin := by linarith
  have tx0 : 0 < (x - p.xMin) / (p.xMax - p.xMin) := div_pos (by linarith) hdx
  have tx1 : (x - p.xMin) / (p.xMax - p.xMin) < 1 := (div_lt_one hdx).2 (by linarith)
  have ty0 : 0 < (y - p.yMin) / (p.yMax - p.yMin) := div_pos (by linarith) hdy
  have ty1 : (y - p.yMin) / (p.yMax - p.yMin) < 1 := (div_lt_one hdy).2 (by linarith)
  have ax0 := mul_pos tx0 hW'
  have ax1 := mul_lt_mul_of_pos_right tx1 hW'
  have ay0 := mul_pos ty0 hH'
  have ay1 := mul_lt_mul_of_pos_right ty1 hH'
  simp only [PlotConfig.StrictlyInside, Plot.dataToCanvas]
  push_cast
  refine ⟨?_, ?_, ?_, ?_⟩ <;> linarith

/-- Every position placed by `drawSeries` is the image of a point of the series. -/
theorem drawSeries_vertices (p : Plot K) (s : DataSeries K) (color : Nat) :
    ∀ call ∈ p.drawSeries [] s color, ∀ pos ∈ call.vertices,
      ∃ q ∈ s.points, pos = p.dataToCanvas q.x q.y := by
  intro call hcall pos hpos
  unfold Plot.drawSeries at hcall
  cases hp : s.points with
  | nil =>
    rw [hp] at hcall
    simp at hcall
  | cons p0 rest =>
    rw [hp] at hcall
    simp only at hcall
    have hpath : ∀ pos' ∈ (DrawCall.drawPath
        (rest.foldl (fun path q =>
          path ++ [PathVerb.lineTo (p.dataToCanvas q.x q.y).1 (p.dataToCanvas q.x q.y).2])
          [PathVerb.moveTo (p.dataToCanvas p0.x p0.y).1 (p.dataToCanvas p0.x p0.y).2])
        ({ color := color, strokeWidth := p.config.lineWidth, style := PaintStyle.kStroke,
           antiAlias := true } : Paint K)).vertices,
        ∃ q ∈ p0 :: rest, pos' = p.dataToCanvas q.x q.y := by
      intro pos' hpos'
      rw [foldl_append_singleton] at hpos'
      simp only [DrawCall.vertices, List.map_append, List.map_cons, List.map_nil,
        List.map_map, List.singleton_append, List.mem_cons, List.mem_map,
        Function.comp_apply] at hpos'
      rcases hpos' with e | ⟨q, hq, e⟩
      · exact ⟨p0, List.mem_cons_self _ _, e⟩
      · exact ⟨q, List.mem_cons_of_mem _ hq, e.symm⟩
    split_ifs at hcall
    · rw [foldl_appends _ (fun c i => by simp)] at hcall
      rcases List.mem_append.1 hcall with hm | hm
      · simp only [List.nil_append, List.mem_singleton] at hm
        subst hm
        exact hpath pos hpos
      · rw [foldl_append_singleton] at hm
        simp only [List.nil_append, List.mem_map] at hm
        obtain ⟨point, hpoint, rfl⟩ := hm
        simp only [DrawCall.vertices, List.mem_singleton] at hpos
        exact ⟨point, hpoint, hpos⟩
    · simp only [List.nil_append, List.mem_singleton] at hcall
      subst hcall
      exact hpath pos hpos

/-- C11: with a plotting rectangle of positive width and height, on every plot that the
interface can produce, and on every dirty plot state, whose series hold at least one point,
`dataToCanvas` after `computeDataRange` sends every point of every series strictly inside
the plotting rectangle: `marginLeft < canvasX < width - marginRight` and
`marginTop < canvasY < height - marginBottom`. Hence every path vertex and marker centre
that `drawSeries` places for a series of the plot lies strictly inside it. -/
theorem data_inside_plotting_rectangle (p : Plot K)
    (hW : 0 < p.config.width - p.config.marginLeft - p.config.marginRight)
    (hH : 0 < p.config.height - p.config.marginTop - p.config.marginBottom)
    (h : Reachable p ∨ p.rangeComputed = false) (hpts : allPoints p.series ≠ []) :
    (∀ s ∈ p.series, ∀ q ∈ s.points,
      (p.config.marginLeft : K) < (p.computeDataRange.dataToCanvas q.x q.y).1 ∧
      (p.computeDataRange.dataToCanvas q.x q.y).1 <
        (p.config.width : K) - (p.config.marginRight : K) ∧
      (p.config.marginTop : K) < (p.computeDataRange.dataToCanvas q.x q.y).2 ∧
      (p.computeDataRange.dataToCanvas q.x q.y).2 <
        (p.config.height : K) - (p.config.marginBottom : K)) ∧
    (∀ s ∈ p.series, ∀ (color : Nat), ∀ call ∈ p.computeDataRange.drawSeries [] s color,
      ∀ pos ∈ call.vertices, p.config.StrictlyInside pos) := by
  have hcfg := computeDataRange_config p
  have hW' : 0 < p.computeDataRange.config.width - p.computeDataRange.config.marginLeft -
      p.computeDataRange.config.marginRight := by rw [hcfg]; exact hW
  have hH' : 0 < p.computeDataRange.config.height - p.computeDataRange.config.marginTop -
      p.computeDataRange.config.marginBottom := by rw [hcfg]; exact hH
  have hcov := computeDataRange_covers p h hpts
  have main : ∀ s ∈ p.series, ∀ q ∈ s.points,
      p.config.StrictlyInside (p.computeDataRange.dataToCanvas q.x q.y) := by
    intro s hs q hq
    obtain ⟨a, b, c, d⟩ := hcov q (mem_allPoints hs hq)
    have := dataToCanvas_strictlyInside p.computeDataRange hW' hH' q.x q.y a b c d
    rw [hcfg] at this
    exact this
  refine ⟨fun s hs q hq => main s hs q hq, ?_⟩
  intro s hs color call hcall pos hpos
  obtain ⟨q, hq, e⟩ := drawSeries_vertices p.computeDataRange s color call hcall pos hpos
  rw [e]
  exact main s hs q hq

theorem data_inside_plotting_rectangle_witness :
    ((0 : Int) < samplePlot.config.width - samplePlot.config.marginLeft -
        samplePlot.config.marginRight ∧
      (0 : Int) < samplePlot.config.height - samplePlot.config.marginTop -
        samplePlot.config.marginBottom ∧
      (Reachable samplePlot ∨ samplePlot.rangeComputed = false) ∧
      allPoints samplePlot.series ≠ []) ∧
    (∀ s ∈ samplePlot.series, ∀ q ∈ s.points,
      ((samplePlot.config.marginLeft : Int) : ℚ) <
        (samplePlot.computeDataRange.dataToCanvas q.x q.y).1 ∧
      (samplePlot.computeDataRange.dataToCanvas q.x q.y).1 <
        ((samplePlot.config.width : Int) : ℚ) - ((samplePlot.config.marginRight : Int) : ℚ) ∧
      ((samplePlot.config.marginTop : Int) : ℚ) <
        (samplePlot.computeDataRange.dataToCanvas q.x q.y).2 ∧
      (samplePlot.computeDataRange.dataToCanvas q.x q.y).2 <
        ((samplePlot.config.height : Int) : ℚ) -
          ((samplePlot.config.marginBottom : Int) : ℚ)) :=
  ⟨⟨by decide, by decide,
      Or.inl (Reachable.addSeries _ (Reachable.addSeries _ (Reachable.new 800 600))),
      by simp [samplePlot, Plot.addSeries, Plot.new, allPoints]⟩,
    (data_inside_plotting_rectangle samplePlot (by decide) (by decide)
      (Or.inl (Reachable.addSeries _ (Reachable.addSeries _ (Reachable.new 800 600))))
      (by simp [samplePlot, Plot.addSeries, Plot.new, allPoints])).1⟩

/-- On the sample plot the point `(1, 2)` is drawn at `(1010/11, 290)`, inside the plotting
rectangle `(60, 760) × (40, 540)`. -/
theorem dataToCanvas_samplePlot :
    samplePlot.computeDataRange.dataToCanvas 1 2 = (1010 / 11, 290) := by
  norm_num [samplePlot, Plot.computeDataRange, Plot.addSeries, Plot.new, rangeLoopBody,
    DataSeries.getRange, getRangeStep, Plot.dataToCanvas]

end SkiaPlot
